import Mathlib

/-!
Shallow embedding of the lovelace-touchpad-card gesture classifier,
delta accumulator, and transport channel (source: src/touchpad-card.ts,
the full variant with reconnect backoff and error notification).

Conventions of the embedding:
* JavaScript numbers (pixel coordinates, accumulated deltas, multipliers)
  are modelled as exact rationals `ℚ`; timestamps and millisecond
  durations as `Int`.
* `Math.hypot(a, b) <= r` is modelled by `hypotLe a b r`, i.e.
  `0 ≤ r ∧ a^2 + b^2 ≤ r^2`, which is equivalent for real arguments
  since `hypot` is nonnegative.
* The JavaScript `Map` of active pointers is a `List Pointer` in
  insertion order: `set` replaces in place or appends, `delete` removes,
  `values()[0]` is `head?`.
* Each send helper (`sendTap`, `sendButton`) records an `Eff.call m`
  (the helper was invoked, a send attempt) and additionally an
  `Eff.wire m` when the socket is open (the message was handed to the
  socket); `flush` hands messages to the socket directly, recording
  `Eff.wire` per message, and sends nothing when the socket is not open.
* Timers (`holdTimer`, `tapTimer`, the rAF handle, the reconnect and
  status-debounce timers) are deadlines or flags in the state; a timer
  callback is an explicit event, and a cleared timer's callback simply
  never appears in a run (firing events are no-ops when the timer is
  not armed).
-/

namespace Touchpad

def HOLD_DELAY_MS : Int := 320

def HOLD_CANCEL_PX : ℚ := 3

def RECONNECT_BASE_MS : Nat := 1500

def RECONNECT_MAX_MS : Nat := 15000

def STATUS_DEBOUNCE_MS : Int := 600

/-- Pointer input type (`ev.pointerType`): the card only arms the hold
timer and locked-pan tracking for `touch` and `pen`. -/
inductive PType
  | touch
  | pen
  | mouse
deriving DecidableEq

/-- One active contact (interface `PointerState`): current position plus
immutable start position and start time. -/
structure Pointer where
  id : Nat
  x : ℚ
  y : ℚ
  startX : ℚ
  startY : ℚ
  startTime : Int
deriving DecidableEq

/-- Locked-pan tracking state (`LockedPanState`). -/
structure LockedPanState where
  id : Nat
  lastY : ℚ
deriving DecidableEq

/-- The gesture mode (`PointerGesture`), `none` standing for `null`. -/
inductive Gesture
  | move
  | scroll
deriving DecidableEq

/-- Gesture-relevant configuration options (the `opts` object). -/
structure Opts where
  sensitivity : ℚ
  scrollMultiplier : ℚ
  invertScroll : Bool
  doubleTapMs : Int
  tapSuppressionPx : ℚ
deriving DecidableEq

/-- Wire-protocol messages relevant to the gesture claims
(`TouchpadMessage` restricted to the pointer intents). -/
inductive Msg
  | move (dx dy : ℚ)
  | scroll (dx dy : ℚ)
  | click
  | double_click
  | right_click
  | down
  | up
deriving DecidableEq

/-- Observable effects of a handler: `call m` records that a send helper
was invoked with message `m` (a send attempt); `wire m` records that `m`
was actually handed to the open socket; `scrollBy` is the host-page
scroll performed by locked-pan mode; `haptic` is the vibration on drag
engage. -/
inductive Eff
  | call (m : Msg)
  | wire (m : Msg)
  | scrollBy (top : ℚ)
  | haptic
deriving DecidableEq

/-- The card's gesture/accumulator state (the fields of `TouchpadCard`
the gesture claims depend on). `socketOpen` abstracts
`socket.readyState === WebSocket.OPEN`. -/
structure Card where
  socketOpen : Bool
  locked : Bool
  speedMultiplier : ℚ
  opts : Opts
  pointers : List Pointer
  gesture : Option Gesture
  moveAccum : ℚ × ℚ
  scrollAccum : ℚ × ℚ
  lastTapTime : Int
  tapTimer : Option Int
  holdTimer : Option (Int × Nat)
  dragPointerId : Option Nat
  lockedPan : Option LockedPanState
  rafQueued : Bool
deriving DecidableEq

/-- `Math.hypot a b ≤ r`, expressed without square roots. -/
def hypotLe (a b r : ℚ) : Prop := 0 ≤ r ∧ a * a + b * b ≤ r * r

instance (a b r : ℚ) : Decidable (hypotLe a b r) := by
  unfold hypotLe; infer_instance

/-- `Map.get`: first entry with the given id. -/
def mapGet : List Pointer → Nat → Option Pointer
  | [], _ => none
  | p :: ps, i => if p.id = i then some p else mapGet ps i

/-- `Map.set`: replace in place if present, else append. -/
def mapSet : List Pointer → Nat → Pointer → List Pointer
  | [], _, v => [v]
  | p :: ps, i, v => if p.id = i then v :: ps else p :: mapSet ps i v

/-- `Map.delete`: remove every entry with the given id. -/
def mapDelete : List Pointer → Nat → List Pointer
  | [], _ => []
  | p :: ps, i => if p.id = i then mapDelete ps i else p :: mapDelete ps i

/-- `centroid()`: arithmetic mean of all active contacts, origin if none. -/
def centroid (ps : List Pointer) : ℚ × ℚ :=
  if ps.length = 0 then (0, 0)
  else ((ps.map (·.x)).sum / ps.length, (ps.map (·.y)).sum / ps.length)

/-- `sendTap`: invokes the send helper; transmits only when the socket is
open. -/
def sendTap (c : Card) (m : Msg) : List Eff :=
  Eff.call m :: (if c.socketOpen then [Eff.wire m] else [])

/-- `sendButton`: identical guard shape to `sendTap`. -/
def sendButton (c : Card) (m : Msg) : List Eff :=
  Eff.call m :: (if c.socketOpen then [Eff.wire m] else [])

/-- `cancelHoldTimer()`. -/
def cancelHoldTimer (c : Card) : Card :=
  {c with holdTimer := none}

/-- `endDragIfNeeded(pointerId?)`: if a drag is engaged and either no id
was given or it matches, send `up` and clear the drag. -/
def endDragIfNeeded (c : Card) (pid : Option Nat) : Card × List Eff :=
  match c.dragPointerId with
  | none => (c, [])
  | some d =>
    if pid = none ∨ pid = some d then
      ({c with dragPointerId := none}, sendButton c Msg.up)
    else (c, [])

/-- `startHoldTimer(ev)`: touch/pen only; arms the hold deadline,
remembering the pointer id captured by the callback closure. -/
def startHoldTimer (c : Card) (id : Nat) (τ : PType) (now : Int) : Card :=
  if τ ≠ PType.touch ∧ τ ≠ PType.pen then c
  else {cancelHoldTimer c with holdTimer := some (now + HOLD_DELAY_MS, id)}

/-- `startLockedPan(ev)`: touch/pen only; records (replacing any previous
tracking) the pointer id and its vertical coordinate. -/
def startLockedPan (c : Card) (id : Nat) (y : ℚ) (τ : PType) : Card :=
  if τ ≠ PType.touch ∧ τ ≠ PType.pen then c
  else {c with lockedPan := some ⟨id, y⟩}

/-- `moveLockedPan(ev)`: only the tracked pointer scrolls the host page. -/
def moveLockedPan (c : Card) (id : Nat) (y : ℚ) (τ : PType) : Card × List Eff :=
  match c.lockedPan with
  | none => (c, [])
  | some lp =>
    if lp.id ≠ id then (c, [])
    else if τ ≠ PType.touch ∧ τ ≠ PType.pen then (c, [])
    else
      let deltaY := y - lp.lastY
      if deltaY ≠ 0 then
        ({c with lockedPan := some ⟨id, y⟩}, [Eff.scrollBy (-deltaY)])
      else (c, [])

/-- `endLockedPan(ev)`. -/
def endLockedPan (c : Card) (id : Nat) : Card × List Eff :=
  match c.lockedPan with
  | some lp => if lp.id = id then ({c with lockedPan := none}, []) else (c, [])
  | none => (c, [])

/-- The shared second-contact sequence of the down and move handlers:
`cancelHoldTimer(); endDragIfNeeded(); gesture = 'scroll'`. -/
def promoteScroll (c : Card) : Card × List Eff :=
  let r := endDragIfNeeded (cancelHoldTimer c) none
  ({r.1 with gesture := some Gesture.scroll}, r.2)

/-- `handlePointerDown`. -/
def handlePointerDown (c : Card) (id : Nat) (x y : ℚ) (τ : PType) (now : Int) :
    Card × List Eff :=
  if c.locked then (startLockedPan c id y τ, [])
  else
    let c := {c with pointers := mapSet c.pointers id ⟨id, x, y, x, y, now⟩}
    if c.pointers.length = 1 then
      ({startHoldTimer c id τ now with gesture := some Gesture.move}, [])
    else if 2 ≤ c.pointers.length then
      promoteScroll c
    else (c, [])

/-- The body of `handlePointerMove` after a successful contact lookup:
update the position, maybe cancel the hold timer, maybe promote to
scroll, and accumulate the centroid delta into the matching
accumulator. -/
def pointerMoveCore (c : Card) (p : Pointer) (id : Nat) (x y : ℚ) :
    Card × List Eff :=
  let before := centroid c.pointers
  let c := {c with pointers := mapSet c.pointers id {p with x := x, y := y}}
  let after := centroid c.pointers
  let c :=
    if c.holdTimer ≠ none ∧ ¬ hypotLe (x - p.startX) (y - p.startY) HOLD_CANCEL_PX
    then cancelHoldTimer c else c
  let r1 := if 2 ≤ c.pointers.length then promoteScroll c else (c, [])
  let c := r1.1
  if c.gesture = some Gesture.move ∧ c.pointers.length = 1 then
    let mult := c.opts.sensitivity * c.speedMultiplier
    ({c with
        moveAccum := (c.moveAccum.1 + (after.1 - before.1) * mult,
                      c.moveAccum.2 + (after.2 - before.2) * mult),
        rafQueued := true}, r1.2)
  else if c.gesture = some Gesture.scroll ∧ 2 ≤ c.pointers.length then
    let dir : ℚ := if c.opts.invertScroll then -1 else 1
    ({c with
        scrollAccum := (c.scrollAccum.1 + (after.1 - before.1) * c.opts.scrollMultiplier * dir,
                        c.scrollAccum.2 + (after.2 - before.2) * c.opts.scrollMultiplier * dir),
        rafQueued := true}, r1.2)
  else (c, r1.2)

/-- `handlePointerMove`. -/
def handlePointerMove (c : Card) (id : Nat) (x y : ℚ) (τ : PType) :
    Card × List Eff :=
  if c.locked then moveLockedPan c id y τ
  else
    match mapGet c.pointers id with
    | none => (c, [])
    | some p => pointerMoveCore c p id x y

/-- The tail of `handlePointerUp` after the two-finger-tap early return:
the single-finger tap/double-tap policy and the scroll-to-move demotion. -/
def pointerUpTail (c : Card) (wasDragging distOk durOk : Bool) (now : Int) :
    Card × List Eff :=
  if c.pointers.length = 0 then
    if wasDragging = false ∧ c.gesture = some Gesture.move ∧ distOk = true ∧ durOk = true then
      if now - c.lastTapTime ≤ c.opts.doubleTapMs then
        ({c with tapTimer := none, lastTapTime := 0, gesture := none},
          sendTap c Msg.double_click)
      else
        ({c with lastTapTime := now, tapTimer := some (now + c.opts.doubleTapMs),
                 gesture := none}, [])
    else ({c with gesture := none}, [])
  else if c.pointers.length = 1 ∧ c.gesture = some Gesture.scroll then
    ({c with gesture := some Gesture.move}, [])
  else (c, [])

/-- The body of `handlePointerUp` after the drag release: cancel the
hold timer, remove the contact, and run the two-finger-tap check
followed (when it does not fire) by the single-finger tap tail. `c` is
the card after the drag release, `p` the stored contact being lifted. -/
def pointerUpCore (c : Card) (p : Pointer) (id : Nat) (x y : ℚ) (now : Int)
    (wasDragging : Bool) : Card × List Eff :=
  let c := cancelHoldTimer c
  let beforeCount := c.pointers.length
  let distOk : Bool := decide (hypotLe (x - p.startX) (y - p.startY) c.opts.tapSuppressionPx)
  let durOk : Bool := decide (now - p.startTime ≤ c.opts.doubleTapMs)
  let c := {c with pointers := mapDelete c.pointers id}
  if beforeCount = 2 then
    match c.pointers.head? with
    | some r =>
      if hypotLe (x - p.startX) (y - p.startY) c.opts.tapSuppressionPx
          ∧ hypotLe (r.x - r.startX) (r.y - r.startY) c.opts.tapSuppressionPx
          ∧ now - min p.startTime r.startTime ≤ c.opts.doubleTapMs then
        ({c with pointers := [], gesture := none}, sendTap c Msg.right_click)
      else
        pointerUpTail c wasDragging distOk durOk now
    | none =>
      pointerUpTail c wasDragging distOk durOk now
  else
    pointerUpTail c wasDragging distOk durOk now

/-- `handlePointerUp`. -/
def handlePointerUp (c : Card) (id : Nat) (x y : ℚ) (now : Int) :
    Card × List Eff :=
  if c.locked then endLockedPan c id
  else
    match mapGet c.pointers id with
    | none => (c, [])
    | some p =>
      let wasDragging : Bool := decide (c.dragPointerId = some id)
      let out1 := if wasDragging then sendButton c Msg.up else []
      let c := if wasDragging then {c with dragPointerId := none} else c
      let r := pointerUpCore c p id x y now wasDragging
      (r.1, out1 ++ r.2)

/-- `handlePointerCancel`. -/
def handlePointerCancel (c : Card) (id : Nat) : Card × List Eff :=
  if c.locked then endLockedPan c id
  else
    let c :=
      if (mapGet c.pointers id).isSome then
        {c with pointers := mapDelete c.pointers id}
      else c
    let r :=
      if c.dragPointerId = some id then
        ({c with dragPointerId := none}, sendButton c Msg.up)
      else (c, [])
    let c := cancelHoldTimer r.1
    if c.pointers.length = 0 then ({c with gesture := none}, r.2) else (c, r.2)

/-- The hold-timer callback: engage the drag if the captured contact is
still the only one, the gesture is `move`, no drag is engaged, and the
contact is within the cancellation radius of its start; when the contact
is gone the callback returns early (leaving the spent handle set, as the
source does). -/
def fireHoldTimer (c : Card) : Card × List Eff :=
  match c.holdTimer with
  | none => (c, [])
  | some (_, pid) =>
    match mapGet c.pointers pid with
    | none => (c, [])
    | some p =>
      if c.pointers.length = 1 ∧ c.gesture = some Gesture.move
          ∧ c.dragPointerId = none
          ∧ hypotLe (p.x - p.startX) (p.y - p.startY) HOLD_CANCEL_PX then
        ({c with dragPointerId := some pid, holdTimer := none},
          sendButton c Msg.down ++ [Eff.haptic])
      else ({c with holdTimer := none}, [])

/-- The tap-timer callback: send a single `click`, reset the last-tap
timestamp, clear the handle. -/
def fireTapTimer (c : Card) : Card × List Eff :=
  match c.tapTimer with
  | none => (c, [])
  | some _ =>
    ({c with lastTapTime := 0, tapTimer := none}, sendTap c Msg.click)

/-- `flush()`: if the socket is not open, drop the accumulated deltas;
otherwise emit at most one `move` and at most one `scroll` message
(each only if its accumulator is nonzero in some axis, `Math.abs v > 0`
being `v ≠ 0`), zeroing the drained accumulators. -/
def flush (c : Card) : Card × List Eff :=
  if ¬ c.socketOpen then
    ({c with moveAccum := (0, 0), scrollAccum := (0, 0)}, [])
  else
    let step1 : Card × List Eff :=
      if c.moveAccum.1 ≠ 0 ∨ c.moveAccum.2 ≠ 0 then
        ({c with moveAccum := (0, 0)}, [Eff.wire (Msg.move c.moveAccum.1 c.moveAccum.2)])
      else (c, [])
    let c1 := step1.1
    let step2 : Card × List Eff :=
      if c1.scrollAccum.1 ≠ 0 ∨ c1.scrollAccum.2 ≠ 0 then
        ({c1 with scrollAccum := (0, 0)}, [Eff.wire (Msg.scroll c1.scrollAccum.1 c1.scrollAccum.2)])
      else (c1, [])
    (step2.1, step1.2 ++ step2.2)

/-- The gesture-relevant part of `disconnectedCallback`: clear the tap
and hold timers, and if a drag is engaged send `up` and clear it. -/
def detachGesture (c : Card) : Card × List Eff :=
  let c := {c with tapTimer := none, holdTimer := none}
  if c.dragPointerId ≠ none then
    ({c with dragPointerId := none}, sendButton c Msg.up)
  else (c, [])

/-- `toggleLock`: when turning lock mode on with a drag engaged, send
`up` and clear the drag; always cancel the hold timer and drop any
locked-pan tracking, then flip the flag. -/
def toggleLock (c : Card) : Card × List Eff :=
  let step1 : Card × List Eff :=
    if c.locked = false ∧ c.dragPointerId ≠ none then
      ({c with dragPointerId := none}, sendButton c Msg.up)
    else (c, [])
  let c1 := cancelHoldTimer step1.1
  ({c1 with lockedPan := none, locked := ¬ c1.locked}, step1.2)

/-- The events the card reacts to: pointer events, timer callbacks, the
animation-frame flush, host detach and the lock toggle. -/
inductive Ev
  | pdown (id : Nat) (x y : ℚ) (τ : PType) (now : Int)
  | pmove (id : Nat) (x y : ℚ) (τ : PType)
  | pup (id : Nat) (x y : ℚ) (now : Int)
  | pcancel (id : Nat)
  | holdFire
  | tapFire
  | frameFlush
  | detach
  | lockToggle
deriving DecidableEq

/-- One step of the card: dispatch an event to its handler. The
animation-frame callback runs only when one was queued. -/
def stepEv (c : Card) : Ev → Card × List Eff
  | Ev.pdown id x y τ now => handlePointerDown c id x y τ now
  | Ev.pmove id x y τ => handlePointerMove c id x y τ
  | Ev.pup id x y now => handlePointerUp c id x y now
  | Ev.pcancel id => handlePointerCancel c id
  | Ev.holdFire => fireHoldTimer c
  | Ev.tapFire => fireTapTimer c
  | Ev.frameFlush => if c.rafQueued then flush {c with rafQueued := false} else (c, [])
  | Ev.detach => detachGesture c
  | Ev.lockToggle => toggleLock c

/-- Run a list of events, collecting the emitted effects in order. -/
def runEvs (c : Card) : List Ev → Card × List Eff
  | [] => (c, [])
  | e :: es =>
    let r1 := stepEv c e
    let r2 := runEvs r1.1 es
    (r2.1, r1.2 ++ r2.2)

/-- Number of occurrences of one effect in an effect trace. -/
def effCount (m : Eff) : List Eff → Nat
  | [] => 0
  | e :: es => (if e = m then 1 else 0) + effCount m es

/-- Number of `move` wire messages (of any payload) in an effect trace. -/
def moveWireCount : List Eff → Nat
  | [] => 0
  | Eff.wire (Msg.move _ _) :: es => 1 + moveWireCount es
  | _ :: es => moveWireCount es

/-- Number of `scroll` wire messages (of any payload) in a trace. -/
def scrollWireCount : List Eff → Nat
  | [] => 0
  | Eff.wire (Msg.scroll _ _) :: es => 1 + scrollWireCount es
  | _ :: es => scrollWireCount es

/-- Connection status (`_status` / `_statusDisplay` values). -/
inductive CStatus
  | disconnected
  | connecting
  | connected
  | error
deriving DecidableEq

/-- Transport-channel state: the socket lifecycle fields of the card.
`statusPending` models the status-debounce timer as the pending display
value together with the deadline at which the timer would fire. -/
structure Transport where
  hasConfig : Bool
  connected : Bool
  wsErrorNotified : Bool
  reconnectDelayMs : Nat
  reconnectPending : Bool
  status : CStatus
  statusDisplay : CStatus
  statusPending : Option (CStatus × Int)
deriving DecidableEq

/-- Transport effects: scheduling a reconnect with a given delay, and
reporting (logging) a socket error. -/
inductive TEff
  | scheduleReconnect (delay : Nat)
  | logError
deriving DecidableEq

/-- `Math.round(d * 1.8)` for a natural number of milliseconds:
`1.8 * d = 9d/5`, rounded half-up, is `(18d + 5) / 10` in integer
arithmetic. -/
def round18 (d : Nat) : Nat := (18 * d + 5) / 10

/-- The backoff recurrence: `Math.min(Math.round(d * 1.8), RECONNECT_MAX_MS)`. -/
def nextDelay (d : Nat) : Nat := min (round18 d) RECONNECT_MAX_MS

/-- `setStatus(next)`: record the immediate status, cancel any pending
debounce, propagate `connected` to the display at once, and otherwise
arm the debounce timer for the damping window. -/
def setStatus (s : Transport) (next : CStatus) (now : Int) : Transport :=
  let s := {s with status := next, statusPending := none}
  if next = CStatus.connected then {s with statusDisplay := next}
  else {s with statusPending := some (next, now + STATUS_DEBOUNCE_MS)}

/-- `scheduleReconnect()`: no-op without a configuration or with a
reconnect already pending; otherwise schedule one reconnect after the
current backoff delay and grow the delay. -/
def scheduleReconnect (s : Transport) : Transport × List TEff :=
  if ¬ s.hasConfig ∨ s.reconnectPending then (s, [])
  else
    ({s with reconnectPending := true,
             reconnectDelayMs := nextDelay s.reconnectDelayMs},
      [TEff.scheduleReconnect s.reconnectDelayMs])

/-- `connect()` (up to socket creation, assumed to succeed): tear down
any pending reconnect, and either report `disconnected` (no config) or
report `connecting` and clear the error-notified flag. -/
def connect (s : Transport) (now : Int) : Transport :=
  let s := {s with reconnectPending := false}
  if ¬ s.hasConfig then setStatus s CStatus.disconnected now
  else {setStatus s CStatus.connecting now with wsErrorNotified := false}

/-- Transport events: the socket's `open`/`close`/`error` listeners, the
reconnect timer firing (which calls `connect`) and the status-debounce
timer firing. Each carries the current time. -/
inductive TEv
  | sockOpen (now : Int)
  | sockClose (now : Int)
  | sockError (now : Int)
  | reconnectFire (now : Int)
  | statusFire (now : Int)
deriving DecidableEq

/-- The time stamped on a transport event. -/
def timeOf : TEv → Int
  | TEv.sockOpen t => t
  | TEv.sockClose t => t
  | TEv.sockError t => t
  | TEv.reconnectFire t => t
  | TEv.statusFire t => t

/-- Whether a transport event is the socket `open` event. -/
def isSockOpen : TEv → Bool
  | TEv.sockOpen _ => true
  | _ => false

/-- One step of the transport state machine. -/
def tstep (s : Transport) : TEv → Transport × List TEff
  | TEv.sockOpen t =>
    (setStatus {s with connected := true, wsErrorNotified := false,
                       reconnectDelayMs := RECONNECT_BASE_MS} CStatus.connected t, [])
  | TEv.sockClose t =>
    scheduleReconnect (setStatus {s with connected := false} CStatus.connecting t)
  | TEv.sockError t =>
    let r : Transport × List TEff :=
      if s.wsErrorNotified = false then ({s with wsErrorNotified := true}, [TEff.logError])
      else (s, [])
    (setStatus r.1 CStatus.error t, r.2)
  | TEv.reconnectFire t => (connect {s with reconnectPending := false} t, [])
  | TEv.statusFire _ =>
    match s.statusPending with
    | some (st, _) => ({s with statusDisplay := st, statusPending := none}, [])
    | none => (s, [])

/-- Run a list of transport events, collecting effects in order. -/
def trun (s : Transport) : List TEv → Transport × List TEff
  | [] => (s, [])
  | e :: es =>
    let r1 := tstep s e
    let r2 := trun r1.1 es
    (r2.1, r1.2 ++ r2.2)

/-- All states visited along a run, the start state included. -/
def statesAlong (s : Transport) : List TEv → List Transport
  | [] => [s]
  | e :: es => s :: statesAlong (tstep s e).1 es

/-- The delays of the reconnects scheduled in an effect trace, in order. -/
def schedDelays : List TEff → List Nat
  | [] => []
  | TEff.scheduleReconnect d :: es => d :: schedDelays es
  | TEff.logError :: es => schedDelays es

/-- Number of error reports in an effect trace. -/
def logCount : List TEff → Nat
  | [] => 0
  | TEff.logError :: es => 1 + logCount es
  | TEff.scheduleReconnect _ :: es => logCount es

/-- A run is timer-valid when every status-debounce firing happens while
the timer is armed and exactly at its recorded deadline (a cleared timer
never fires, and a timer does not fire early). -/
def validRun : Transport → List TEv → Prop
  | _, [] => True
  | s, e :: es =>
    (∀ t, e = TEv.statusFire t → ∃ st d, s.statusPending = some (st, d) ∧ t = d) ∧
      validRun (tstep s e).1 es

section Lemmas

theorem effCount_append (m : Eff) (a b : List Eff) :
    effCount m (a ++ b) = effCount m a + effCount m b := by
  induction a with
  | nil => simp [effCount]
  | cons x xs ih => simp [effCount, ih]; ring

theorem moveWireCount_append (a b : List Eff) :
    moveWireCount (a ++ b) = moveWireCount a + moveWireCount b := by
  induction a with
  | nil => simp [moveWireCount]
  | cons x xs ih =>
    cases x with
    | wire m => cases m <;> simp [moveWireCount, ih] <;> ring
    | call m => simp [moveWireCount, ih]
    | scrollBy t => simp [moveWireCount, ih]
    | haptic => simp [moveWireCount, ih]

theorem scrollWireCount_append (a b : List Eff) :
    scrollWireCount (a ++ b) = scrollWireCount a + scrollWireCount b := by
  induction a with
  | nil => simp [scrollWireCount]
  | cons x xs ih =>
    cases x with
    | wire m => cases m <;> simp [scrollWireCount, ih] <;> ring
    | call m => simp [scrollWireCount, ih]
    | scrollBy t => simp [scrollWireCount, ih]
    | haptic => simp [scrollWireCount, ih]

theorem runEvs_append (c : Card) (a b : List Ev) :
    runEvs c (a ++ b) =
      ((runEvs (runEvs c a).1 b).1, (runEvs c a).2 ++ (runEvs (runEvs c a).1 b).2) := by
  induction a generalizing c with
  | nil => simp [runEvs]
  | cons e es ih => simp [runEvs, ih]

theorem trun_append (s : Transport) (a b : List TEv) :
    trun s (a ++ b) =
      ((trun (trun s a).1 b).1, (trun s a).2 ++ (trun (trun s a).1 b).2) := by
  induction a generalizing s with
  | nil => simp [trun]
  | cons e es ih => simp [trun, ih]

theorem schedDelays_append (a b : List TEff) :
    schedDelays (a ++ b) = schedDelays a ++ schedDelays b := by
  induction a with
  | nil => simp [schedDelays]
  | cons x xs ih => cases x <;> simp [schedDelays, ih]

theorem logCount_append (a b : List TEff) :
    logCount (a ++ b) = logCount a + logCount b := by
  induction a with
  | nil => simp [logCount]
  | cons x xs ih => cases x <;> simp [logCount, ih] <;> ring

/-- Closed form of the second-contact sequence: the hold timer and drag
are cleared, the gesture becomes `scroll`, and an `up` attempt is
recorded exactly when a drag was engaged. -/
theorem promoteScroll_eq (c : Card) :
    promoteScroll c =
      ({c with holdTimer := none, dragPointerId := none, gesture := some Gesture.scroll},
        if c.dragPointerId = none then [] else sendButton c Msg.up) := by
  unfold promoteScroll endDragIfNeeded cancelHoldTimer
  cases h : c.dragPointerId <;> simp [h, sendButton]

end Lemmas

section ClaimC4

/-- The wire trace of a flush over an open socket, in closed form. -/
theorem flush_trace_eq (c : Card) (h : c.socketOpen = true) :
    (flush c).2 =
      (if c.moveAccum.1 ≠ 0 ∨ c.moveAccum.2 ≠ 0
        then [Eff.wire (Msg.move c.moveAccum.1 c.moveAccum.2)] else []) ++
      (if c.scrollAccum.1 ≠ 0 ∨ c.scrollAccum.2 ≠ 0
        then [Eff.wire (Msg.scroll c.scrollAccum.1 c.scrollAccum.2)] else []) := by
  unfold flush
  simp [h]
  split <;> split <;> simp

/-- C4 — flush sends at most one `move` (only if the move accumulator is
nonzero in some axis, carrying exactly the accumulated deltas) followed
by at most one `scroll` (same condition on the scroll accumulator); both
accumulators read `(0, 0)` immediately afterwards; with move accumulator
`(10, -4)` and scroll accumulator `(0, 0)` over an open socket exactly
one `move` with `dx = 10`, `dy = -4` and no `scroll` is sent; and when
the socket is not open nothing is sent but both accumulators are still
zeroed (the deltas are dropped). -/
theorem C4_flush_correct :
    (∀ c : Card, (flush c).1.moveAccum = (0, 0) ∧ (flush c).1.scrollAccum = (0, 0)) ∧
    (∀ c : Card, c.socketOpen = true →
      moveWireCount (flush c).2 ≤ 1 ∧ scrollWireCount (flush c).2 ≤ 1 ∧
      (∀ a b : ℚ, Eff.wire (Msg.move a b) ∈ (flush c).2 →
        (a, b) = c.moveAccum ∧ ¬ (a = 0 ∧ b = 0)) ∧
      (∀ a b : ℚ, Eff.wire (Msg.scroll a b) ∈ (flush c).2 →
        (a, b) = c.scrollAccum ∧ ¬ (a = 0 ∧ b = 0)) ∧
      (∀ (pre suff : List Eff) (a b : ℚ),
        (flush c).2 = pre ++ Eff.wire (Msg.move a b) :: suff → pre = [])) ∧
    (∀ c : Card, c.socketOpen = true → c.moveAccum = (10, -4) → c.scrollAccum = (0, 0) →
      (flush c).2 = [Eff.wire (Msg.move 10 (-4))]) ∧
    (∀ c : Card, c.socketOpen = false → (flush c).2 = []) := by
  refine ⟨?_, ?_, ?_, ?_⟩
  · intro c
    unfold flush
    by_cases h : c.socketOpen = true
    case neg => simp_all
    by_cases hm : c.moveAccum.1 ≠ 0 ∨ c.moveAccum.2 ≠ 0 <;>
      by_cases hs : c.scrollAccum.1 ≠ 0 ∨ c.scrollAccum.2 ≠ 0 <;>
      simp_all [Prod.ext_iff]
  · intro c h
    rw [flush_trace_eq c h]
    refine ⟨?_, ?_, ?_, ?_, ?_⟩
    · rw [moveWireCount_append]
      split_ifs <;> simp [moveWireCount]
    · rw [scrollWireCount_append]
      split_ifs <;> simp [scrollWireCount]
    · intro a b hm
      split_ifs at hm with h1 h2 h3 <;> simp at hm
      all_goals
        obtain ⟨ha, hb⟩ := hm
        subst ha
        subst hb
        refine ⟨rfl, fun hab => ?_⟩
        simp_all
    · intro a b hm
      split_ifs at hm with h1 h2 h3 <;> simp at hm
      all_goals
        obtain ⟨ha, hb⟩ := hm
        subst ha
        subst hb
        refine ⟨rfl, fun hab => ?_⟩
        simp_all
    · intro pre suff a b heq
      split_ifs at heq with h1 h2
      · simp only [List.singleton_append] at heq
        rcases pre with _ | ⟨p, _ | ⟨q, rest⟩⟩ <;> simp_all
      · simp only [List.append_nil] at heq
        rcases pre with _ | ⟨p, rest⟩ <;> simp_all
      · simp only [List.nil_append] at heq
        rcases pre with _ | ⟨p, rest⟩ <;> simp_all
      · simp only [List.append_nil] at heq
        rcases pre with _ | ⟨p, rest⟩ <;> simp_all
  · intro c h hmv hsc
    rw [flush_trace_eq c h, hmv, hsc]
    norm_num
  · intro c h
    unfold flush
    simp [h]

/-- A concrete card used as witness input for the gesture claims. -/
def demoOpts : Opts :=
  { sensitivity := 1, scrollMultiplier := 1, invertScroll := false,
    doubleTapMs := 250, tapSuppressionPx := 6 }

/-- A concrete quiescent card over an open socket. -/
def demoCard : Card :=
  { socketOpen := true, locked := false, speedMultiplier := 1,
    opts := demoOpts, pointers := [], gesture := none,
    moveAccum := (0, 0), scrollAccum := (0, 0), lastTapTime := 0,
    tapTimer := none, holdTimer := none, dragPointerId := none,
    lockedPan := none, rafQueued := false }

/-- C4 witness: the theorem applied at a concrete card with move
accumulator `(10, -4)` and scroll accumulator `(0, 0)`. -/
theorem C4_flush_correct_witness :
    (flush {demoCard with moveAccum := (10, -4)}).2 = [Eff.wire (Msg.move 10 (-4))] :=
  C4_flush_correct.2.2.1 {demoCard with moveAccum := (10, -4)} rfl rfl rfl

end ClaimC4

section ClaimC9

/-- `startHoldTimer` only touches the hold-timer field. -/
theorem startHoldTimer_eq (c : Card) (id : Nat) (τ : PType) (now : Int) :
    startHoldTimer c id τ now =
      {c with holdTimer :=
        if τ ≠ PType.touch ∧ τ ≠ PType.pen then c.holdTimer
        else some (now + HOLD_DELAY_MS, id)} := by
  unfold startHoldTimer cancelHoldTimer
  split_ifs <;> rfl

/-- `endDragIfNeeded` is the identity when no drag is engaged. -/
theorem endDragIfNeeded_of_none (c : Card) (pid : Option Nat)
    (h : c.dragPointerId = none) : endDragIfNeeded c pid = (c, []) := by
  unfold endDragIfNeeded
  rw [h]

/-- `endDragIfNeeded` never changes the pointer map. -/
theorem endDragIfNeeded_pointers (c : Card) (pid : Option Nat) :
    (endDragIfNeeded c pid).1.pointers = c.pointers := by
  unfold endDragIfNeeded
  cases h : c.dragPointerId <;> simp
  split_ifs <;> rfl

/-- Replacing a present id with `mapSet` preserves the contact count. -/
theorem mapSet_length_of_present (ps : List Pointer) (i : Nat) (v : Pointer)
    (h : (mapGet ps i).isSome) : (mapSet ps i v).length = ps.length := by
  induction ps with
  | nil => simp [mapGet] at h
  | cons p ps ih =>
    by_cases hp : p.id = i
    · simp [mapSet, hp]
    · simp only [mapGet, hp, if_false] at h
      simp [mapSet, hp, ih h]

/-- After `mapSet ps i v` with `v.id = i`, looking up `i` yields `v`. -/
theorem mapGet_mapSet_self (ps : List Pointer) (i : Nat) (v : Pointer)
    (hv : v.id = i) : mapGet (mapSet ps i v) i = some v := by
  induction ps with
  | nil => simp [mapSet, mapGet, hv]
  | cons p ps ih =>
    by_cases hp : p.id = i
    · simp [mapSet, hp, mapGet, hv]
    · simp [mapSet, hp, mapGet, ih]

/-- A concrete card with one tracked contact, id 1, down at the origin at
time 0. -/
def cardOneContact : Card :=
  {demoCard with pointers := [⟨1, 0, 0, 0, 0, 0⟩], gesture := some Gesture.move}

/-- C9 counterexample — a pointer-down for an id that is already present
is not a no-op: the stored contact (including its start fields) changes. -/
theorem C9_counterexample :
    (handlePointerDown cardOneContact 1 5 5 PType.touch 100).1.pointers ≠
      cardOneContact.pointers ∧
    mapGet (handlePointerDown cardOneContact 1 5 5 PType.touch 100).1.pointers 1 ≠
      some ⟨1, 0, 0, 0, 0, 0⟩ := by
  decide

/-- C9 (amended) — a pointer-down for an id that is already present
replaces the stored contact with a fresh one whose position and start
fields are re-initialized from the event (position and time), leaving
the contact count unchanged. -/
theorem C9_down_replaces_contact (c : Card) (id : Nat) (x y : ℚ) (τ : PType)
    (now : Int) (hl : c.locked = false) (hp : (mapGet c.pointers id).isSome) :
    (handlePointerDown c id x y τ now).1.pointers =
      mapSet c.pointers id ⟨id, x, y, x, y, now⟩ ∧
    (handlePointerDown c id x y τ now).1.pointers.length = c.pointers.length ∧
    mapGet (handlePointerDown c id x y τ now).1.pointers id =
      some ⟨id, x, y, x, y, now⟩ := by
  have hlen := mapSet_length_of_present c.pointers id ⟨id, x, y, x, y, now⟩ hp
  have hget := mapGet_mapSet_self c.pointers id ⟨id, x, y, x, y, now⟩ rfl
  unfold handlePointerDown
  simp only [hl, Bool.false_eq_true, if_false]
  split_ifs <;> simp_all [startHoldTimer_eq, promoteScroll_eq, cancelHoldTimer]

/-- C9 witness: the amended theorem applied to a concrete card that
already tracks contact 1. -/
theorem C9_down_replaces_contact_witness :
    (handlePointerDown cardOneContact 1 5 5 PType.touch 100).1.pointers =
      mapSet cardOneContact.pointers 1 ⟨1, 5, 5, 5, 5, 100⟩ ∧
    (handlePointerDown cardOneContact 1 5 5 PType.touch 100).1.pointers.length =
      cardOneContact.pointers.length ∧
    mapGet (handlePointerDown cardOneContact 1 5 5 PType.touch 100).1.pointers 1 =
      some ⟨1, 5, 5, 5, 5, 100⟩ :=
  C9_down_replaces_contact cardOneContact 1 5 5 PType.touch 100 rfl (by decide)

end ClaimC9

section ClaimC8

/-- A concrete locked card currently tracking locked-pan contact 1 with
last vertical coordinate 10. -/
def cardLockedPan : Card :=
  {demoCard with locked := true, lockedPan := some ⟨1, 10⟩}

/-- C8 counterexample — while a locked-pan contact is tracked, a
pointer-down from a second touch contact is not ignored: the tracked
state changes to the new pointer, and a subsequent move of the second
pointer produces a host scroll. -/
theorem C8_counterexample :
    (handlePointerDown cardLockedPan 2 0 50 PType.touch 0).1.lockedPan ≠
      some ⟨1, 10⟩ ∧
    (handlePointerMove (handlePointerDown cardLockedPan 2 0 50 PType.touch 0).1
        2 0 60 PType.touch).2 = [Eff.scrollBy (-10)] := by
  with_unfolding_all decide

/-- C8 (amended) — while locked, a touch/pen pointer-down replaces the
tracked locked-pan contact with the new pointer (only one contact is
tracked at a time, the previous one is dropped); moves of any pointer
other than the currently tracked one produce no scroll and leave the
state unchanged. -/
theorem C8_lockedPan_replaced (c : Card) (id : Nat) (x y : ℚ) (τ : PType)
    (now : Int) (hl : c.locked = true) (hτ : τ = PType.touch ∨ τ = PType.pen) :
    (handlePointerDown c id x y τ now).1.lockedPan = some ⟨id, y⟩ ∧
    (handlePointerDown c id x y τ now).1.pointers = c.pointers ∧
    (handlePointerDown c id x y τ now).2 = [] ∧
    (∀ (c2 : Card) (lp : LockedPanState) (i : Nat) (x2 y2 : ℚ) (τ2 : PType),
      c2.locked = true → c2.lockedPan = some lp → i ≠ lp.id →
      handlePointerMove c2 i x2 y2 τ2 = (c2, [])) := by
  refine ⟨?_, ?_, ?_, ?_⟩
  · unfold handlePointerDown startLockedPan
    rcases hτ with h | h <;> subst h <;> simp [hl]
  · unfold handlePointerDown startLockedPan
    rcases hτ with h | h <;> subst h <;> simp [hl]
  · unfold handlePointerDown
    simp [hl]
  · intro c2 lp i x2 y2 τ2 h2 hlp hi
    unfold handlePointerMove moveLockedPan
    rw [hlp]
    simp [h2, Ne.symm hi]

/-- C8 witness: the amended theorem applied to the concrete locked card
tracking contact 1, with a second touch-down of pointer 2. -/
theorem C8_lockedPan_replaced_witness :
    (handlePointerDown cardLockedPan 2 0 50 PType.touch 0).1.lockedPan =
      some ⟨2, 50⟩ ∧
    (handlePointerDown cardLockedPan 2 0 50 PType.touch 0).1.pointers =
      cardLockedPan.pointers ∧
    (handlePointerDown cardLockedPan 2 0 50 PType.touch 0).2 = [] ∧
    (∀ (c2 : Card) (lp : LockedPanState) (i : Nat) (x2 y2 : ℚ) (τ2 : PType),
      c2.locked = true → c2.lockedPan = some lp → i ≠ lp.id →
      handlePointerMove c2 i x2 y2 τ2 = (c2, [])) :=
  C8_lockedPan_replaced cardLockedPan 2 0 50 PType.touch 0 rfl (Or.inl rfl)

end ClaimC8

section ClaimC10

/-- `sendButton` with `up` records exactly one send attempt of `up`. -/
theorem effCount_sendButton_up (c : Card) :
    effCount (Eff.call Msg.up) (sendButton c Msg.up) = 1 := by
  unfold sendButton
  split_ifs <;> simp [effCount]

/-- `sendTap` with a message other than `up` records no `up` attempt. -/
theorem effCount_sendTap_ne (c : Card) (m : Msg) (h : m ≠ Msg.up) :
    effCount (Eff.call Msg.up) (sendTap c m) = 0 := by
  unfold sendTap
  split_ifs <;> simp [effCount, h]

/-- A conditional singleton wire message contains no send attempt. -/
theorem effCount_call_ite_wire (m m2 : Msg) (p : Prop) [Decidable p] :
    effCount (Eff.call m) (if p then [Eff.wire m2] else []) = 0 := by
  split_ifs <;> simp [effCount]

/-- `startLockedPan` does not touch the drag pointer. -/
theorem startLockedPan_drag (c : Card) (id : Nat) (y : ℚ) (τ : PType) :
    (startLockedPan c id y τ).dragPointerId = c.dragPointerId := by
  unfold startLockedPan
  split_ifs <;> rfl

/-- `moveLockedPan` does not touch the drag pointer. -/
theorem moveLockedPan_drag (c : Card) (id : Nat) (y : ℚ) (τ : PType) :
    (moveLockedPan c id y τ).1.dragPointerId = c.dragPointerId := by
  unfold moveLockedPan
  cases c.lockedPan <;> simp
  split_ifs <;> rfl

/-- `endLockedPan` does not touch the drag pointer. -/
theorem endLockedPan_drag (c : Card) (id : Nat) :
    (endLockedPan c id).1.dragPointerId = c.dragPointerId := by
  unfold endLockedPan
  cases c.lockedPan <;> simp
  split_ifs <;> rfl

/-- The single-finger tap tail does not touch the drag pointer. -/
theorem pointerUpTail_drag (c : Card) (w d u : Bool) (now : Int) :
    (pointerUpTail c w d u now).1.dragPointerId = c.dragPointerId := by
  unfold pointerUpTail
  split_ifs <;> rfl

/-- The single-finger tap tail records no `up` attempt. -/
theorem pointerUpTail_callUp (c : Card) (w d u : Bool) (now : Int) :
    effCount (Eff.call Msg.up) (pointerUpTail c w d u now).2 = 0 := by
  unfold pointerUpTail
  split_ifs <;> simp [effCount, sendTap] <;> split_ifs <;> simp [effCount]

/-- `flush` does not touch the drag pointer. -/
theorem flush_drag (c : Card) :
    (flush c).1.dragPointerId = c.dragPointerId := by
  unfold flush
  split_ifs <;> simp <;> split_ifs <;> rfl

/-- `flush` records no send attempts (it hands messages to the socket
directly). -/
theorem flush_callUp (c : Card) :
    effCount (Eff.call Msg.up) (flush c).2 = 0 := by
  unfold flush
  split_ifs <;> simp [effCount] <;> split_ifs <;> simp [effCount]

/-- `endDragIfNeeded` with no argument, when a drag is engaged, clears it
and invokes the `up` send helper. -/
theorem endDragIfNeeded_some (c : Card) (d : Nat) (h : c.dragPointerId = some d) :
    endDragIfNeeded c none = ({c with dragPointerId := none}, sendButton c Msg.up) := by
  unfold endDragIfNeeded
  rw [h]
  simp

/-- The post-release body of `handlePointerUp` never touches the drag
pointer. -/
theorem pointerUpCore_drag (c : Card) (p : Pointer) (id : Nat) (x y : ℚ)
    (now : Int) (w : Bool) :
    (pointerUpCore c p id x y now w).1.dragPointerId = c.dragPointerId := by
  unfold pointerUpCore
  simp only [cancelHoldTimer]
  split_ifs with h1
  · cases hh : (mapDelete c.pointers id).head? with
    | none => simp [hh, pointerUpTail_drag]
    | some r =>
      simp only [hh]
      split_ifs <;> simp [pointerUpTail_drag]
  · simp [pointerUpTail_drag]

/-- The post-release body of `handlePointerUp` records no `up` attempt. -/
theorem pointerUpCore_callUp (c : Card) (p : Pointer) (id : Nat) (x y : ℚ)
    (now : Int) (w : Bool) :
    effCount (Eff.call Msg.up) (pointerUpCore c p id x y now w).2 = 0 := by
  unfold pointerUpCore
  simp only [cancelHoldTimer]
  split_ifs with h1
  · cases hh : (mapDelete c.pointers id).head? with
    | none => simp [hh, pointerUpTail_callUp]
    | some r =>
      simp only [hh]
      split_ifs <;> simp [pointerUpTail_callUp, sendTap, effCount] <;>
        split_ifs <;> simp [effCount]
  · simp [pointerUpTail_callUp]

set_option maxHeartbeats 1000000 in
/-- C10 — whenever a step of the card clears the engaged-drag pointer id
(contact lift or cancel, a second contact arriving, component detach, or
toggling lock mode on), exactly one `up` send attempt is recorded in
that step's effects: the drag flag is never reset without an
accompanying `up` send attempt. -/
theorem C10_drag_clear_attempts_up (c : Card) (e : Ev)
    (hd : c.dragPointerId ≠ none)
    (hc : (stepEv c e).1.dragPointerId = none) :
    effCount (Eff.call Msg.up) (stepEv c e).2 = 1 := by
  obtain ⟨d, hdd⟩ := Option.ne_none_iff_exists'.mp hd
  cases e with
  | pdown id x y τ now =>
    simp only [stepEv] at hc ⊢
    unfold handlePointerDown at hc ⊢
    by_cases hl : c.locked
    · simp only [hl, if_true] at hc
      rw [startLockedPan_drag] at hc
      exact absurd hc hd
    · simp only [hl, if_false, Bool.false_eq_true] at hc ⊢
      split_ifs at hc ⊢ with h1 h2
      · rw [startHoldTimer_eq] at hc
        exact absurd hc hd
      · rw [promoteScroll_eq]
        simp [hdd, sendButton, effCount, effCount_call_ite_wire]
      · exact absurd hc hd
  | pmove id x y τ =>
    simp only [stepEv] at hc ⊢
    unfold handlePointerMove at hc ⊢
    by_cases hl : c.locked
    · simp only [hl, if_true] at hc
      rw [moveLockedPan_drag] at hc
      exact absurd hc hd
    · simp only [hl, if_false, Bool.false_eq_true] at hc ⊢
      cases hg : mapGet c.pointers id with
      | none => simp only [hg] at hc; exact absurd hc hd
      | some p =>
        simp only [hg] at hc
        unfold pointerMoveCore at hc ⊢
        simp only [promoteScroll_eq] at hc ⊢
        split_ifs at hc ⊢ <;>
          simp_all [sendButton, effCount, cancelHoldTimer, effCount_call_ite_wire]
  | pup id x y now =>
    simp only [stepEv] at hc ⊢
    unfold handlePointerUp at hc ⊢
    by_cases hl : c.locked
    · simp only [hl, if_true] at hc
      rw [endLockedPan_drag] at hc
      exact absurd hc hd
    · simp only [hl, if_false, Bool.false_eq_true] at hc ⊢
      cases hg : mapGet c.pointers id with
      | none => simp only [hg] at hc; exact absurd hc hd
      | some p =>
        simp only [hg] at hc
        by_cases hw : c.dragPointerId = some id
        · have hb : decide (c.dragPointerId = some id) = true := decide_eq_true hw
          simp [hb, effCount_append, effCount_sendButton_up, pointerUpCore_callUp,
            sendButton, effCount, effCount_call_ite_wire]
        · have hb : decide (c.dragPointerId = some id) = false := decide_eq_false hw
          simp only [hb, Bool.false_eq_true, if_false] at hc
          rw [pointerUpCore_drag] at hc
          exact absurd hc hd
  | pcancel id =>
    simp only [stepEv] at hc ⊢
    unfold handlePointerCancel at hc ⊢
    by_cases hl : c.locked
    · simp only [hl, if_true] at hc
      rw [endLockedPan_drag] at hc
      exact absurd hc hd
    · simp only [hl, if_false, Bool.false_eq_true] at hc ⊢
      split_ifs at hc ⊢ <;>
        simp_all [cancelHoldTimer, sendButton, effCount, effCount_call_ite_wire]
  | holdFire =>
    simp only [stepEv] at hc ⊢
    unfold fireHoldTimer at hc ⊢
    cases ht : c.holdTimer with
    | none => simp only [ht] at hc; exact absurd hc hd
    | some v =>
      obtain ⟨dl, pid⟩ := v
      simp only [ht] at hc
      cases hg : mapGet c.pointers pid with
      | none => simp only [hg] at hc; exact absurd hc hd
      | some p =>
        simp only [hg] at hc ⊢
        split_ifs at hc ⊢ <;> simp_all
  | tapFire =>
    simp only [stepEv] at hc ⊢
    unfold fireTapTimer at hc ⊢
    cases ht : c.tapTimer with
    | none => simp only [ht] at hc; exact absurd hc hd
    | some v => simp only [ht] at hc; exact absurd hc hd
  | frameFlush =>
    simp only [stepEv] at hc ⊢
    by_cases h1 : c.rafQueued = true
    · rw [if_pos h1] at hc
      rw [flush_drag] at hc
      exact absurd hc hd
    · rw [if_neg h1] at hc
      exact absurd hc hd
  | detach =>
    simp only [stepEv] at hc ⊢
    unfold detachGesture at hc ⊢
    simp [hdd, sendButton, effCount, effCount_call_ite_wire]
  | lockToggle =>
    simp only [stepEv] at hc ⊢
    unfold toggleLock at hc ⊢
    by_cases hl : c.locked = false
    · simp [hl, hdd, sendButton, effCount, effCount_call_ite_wire, cancelHoldTimer]
    · simp [hl, hdd, cancelHoldTimer] at hc

/-- C10 witness: a concrete card with an engaged drag whose step on
component detach clears the drag with exactly one `up` attempt. -/
theorem C10_drag_clear_attempts_up_witness :
    effCount (Eff.call Msg.up)
      (stepEv {demoCard with dragPointerId := some 1} Ev.detach).2 = 1 :=
  C10_drag_clear_attempts_up {demoCard with dragPointerId := some 1} Ev.detach
    (by decide) (by decide)

end ClaimC10

section ClaimC5

/-- The backoff recurrence never decreases a delay at or below the
ceiling, and never exceeds the ceiling. -/
theorem nextDelay_mono (d : Nat) (h : d ≤ RECONNECT_MAX_MS) :
    d ≤ nextDelay d ∧ nextDelay d ≤ RECONNECT_MAX_MS := by
  unfold nextDelay round18 RECONNECT_MAX_MS at *
  have hd : d * 10 ≤ 18 * d + 5 := by omega
  exact ⟨le_min ((Nat.le_div_iff_mul_le (by norm_num)).mpr hd) h, min_le_right _ _⟩

/-- Closed form of `setStatus`. -/
theorem setStatus_eq (s : Transport) (next : CStatus) (t : Int) :
    setStatus s next t =
      if next = CStatus.connected then
        {s with status := next, statusPending := none, statusDisplay := next}
      else
        {s with status := next, statusPending := some (next, t + STATUS_DEBOUNCE_MS)} := by
  unfold setStatus
  split_ifs <;> rfl

/-- One non-`open` transport step: it schedules at most one reconnect,
carrying the current delay, and the delay itself never decreases nor
exceeds the ceiling. -/
theorem tstep_delay_mono (s : Transport) (e : TEv) (h : isSockOpen e = false)
    (hle : s.reconnectDelayMs ≤ RECONNECT_MAX_MS) :
    (schedDelays (tstep s e).2 = [] ∨
      schedDelays (tstep s e).2 = [s.reconnectDelayMs]) ∧
    s.reconnectDelayMs ≤ (tstep s e).1.reconnectDelayMs ∧
    (tstep s e).1.reconnectDelayMs ≤ RECONNECT_MAX_MS := by
  cases e with
  | sockOpen t => simp [isSockOpen] at h
  | sockClose t =>
    simp only [tstep]
    unfold scheduleReconnect
    split_ifs with h1
    · exact ⟨Or.inl rfl, le_refl _, hle⟩
    · have hg := nextDelay_mono s.reconnectDelayMs hle
      exact ⟨Or.inr rfl, hg.1, hg.2⟩
  | sockError t =>
    simp only [tstep]
    split_ifs with h1
    · exact ⟨Or.inl rfl, le_refl _, hle⟩
    · exact ⟨Or.inl rfl, le_refl _, hle⟩
  | reconnectFire t =>
    simp only [tstep, connect]
    split_ifs with h1
    · exact ⟨Or.inl rfl, le_refl _, hle⟩
    · exact ⟨Or.inl rfl, le_refl _, hle⟩
  | statusFire t =>
    simp only [tstep]
    cases hp : s.statusPending with
    | none => exact ⟨Or.inl rfl, le_refl _, hle⟩
    | some v =>
      obtain ⟨st, dl⟩ := v
      exact ⟨Or.inl rfl, le_refl _, hle⟩

/-- Along any run without an `open` event, delays only grow and every
scheduled reconnect delay is at least the starting delay. -/
theorem trun_delays_mono (es : List TEv) : ∀ s : Transport,
    (∀ e ∈ es, isSockOpen e = false) →
    s.reconnectDelayMs ≤ RECONNECT_MAX_MS →
    (∀ x ∈ schedDelays (trun s es).2, s.reconnectDelayMs ≤ x) ∧
    List.Pairwise (· ≤ ·) (schedDelays (trun s es).2) ∧
    s.reconnectDelayMs ≤ (trun s es).1.reconnectDelayMs ∧
    (trun s es).1.reconnectDelayMs ≤ RECONNECT_MAX_MS := by
  induction es with
  | nil => intro s _ hle; simp [trun, schedDelays, hle]
  | cons e es ih =>
    intro s hnop hle
    have he : isSockOpen e = false := hnop e (List.mem_cons_self e es)
    have h1 := tstep_delay_mono s e he hle
    have h2 := ih (tstep s e).1 (fun x hx => hnop x (List.mem_cons_of_mem e hx)) h1.2.2
    simp only [trun, schedDelays_append]
    refine ⟨?_, ?_, le_trans h1.2.1 h2.2.2.1, h2.2.2.2⟩
    · intro x hx
      rcases List.mem_append.mp hx with hx | hx
      · rcases h1.1 with hsh | hsh <;> rw [hsh] at hx
        · simp at hx
        · simp at hx
          exact hx ▸ le_refl _
      · exact le_trans h1.2.1 (h2.1 x hx)
    · rw [List.pairwise_append]
      refine ⟨?_, h2.2.1, ?_⟩
      · rcases h1.1 with hsh | hsh <;> rw [hsh] <;> simp
      · intro a ha b hb
        rcases h1.1 with hsh | hsh <;> rw [hsh] at ha
        · simp at ha
        · simp at ha
          rw [ha]
          exact le_trans h1.2.1 (h2.1 b hb)

/-- A concrete freshly-configured transport state. -/
def demoTransport : Transport :=
  { hasConfig := true, connected := false, wsErrorNotified := false,
    reconnectDelayMs := RECONNECT_BASE_MS, reconnectPending := false,
    status := CStatus.connecting, statusDisplay := CStatus.connecting,
    statusPending := none }

/-- A concrete run with two closes and no open. -/
def demoTrace5 : List TEv :=
  [TEv.sockClose 0, TEv.reconnectFire 1500, TEv.sockClose 1600,
    TEv.reconnectFire 4300]

/-- C5 — a socket close with no reconnect pending (and a configuration
present) schedules exactly one reconnect at the current backoff delay
and then grows the delay to `min(round(1.8 * d), 15000)`; a close with a
reconnect already pending schedules nothing and leaves the delay
unchanged; the growth step never decreases a delay at or below the 15 s
ceiling and never exceeds the ceiling; along any run without an `open`
event the scheduled delays are non-decreasing; and an `open` resets the
delay to the 1.5 s base. -/
theorem C5_reconnect_backoff :
    (∀ (s : Transport) (t : Int), s.hasConfig = true → s.reconnectPending = false →
      (tstep s (TEv.sockClose t)).2 = [TEff.scheduleReconnect s.reconnectDelayMs] ∧
      (tstep s (TEv.sockClose t)).1.reconnectDelayMs = nextDelay s.reconnectDelayMs ∧
      (tstep s (TEv.sockClose t)).1.reconnectPending = true) ∧
    (∀ (s : Transport) (t : Int), s.reconnectPending = true →
      (tstep s (TEv.sockClose t)).2 = [] ∧
      (tstep s (TEv.sockClose t)).1.reconnectDelayMs = s.reconnectDelayMs) ∧
    (∀ d : Nat, d ≤ RECONNECT_MAX_MS →
      d ≤ nextDelay d ∧ nextDelay d ≤ RECONNECT_MAX_MS) ∧
    (∀ (s : Transport) (es : List TEv), (∀ e ∈ es, isSockOpen e = false) →
      s.reconnectDelayMs ≤ RECONNECT_MAX_MS →
      List.Pairwise (· ≤ ·) (schedDelays (trun s es).2)) ∧
    (∀ (s : Transport) (t : Int),
      (tstep s (TEv.sockOpen t)).1.reconnectDelayMs = RECONNECT_BASE_MS) := by
  refine ⟨?_, ?_, fun d hd => nextDelay_mono d hd,
    fun s es h1 h2 => (trun_delays_mono es s h1 h2).2.1, fun s t => rfl⟩
  · intro s t hcf hp
    simp only [tstep]
    unfold scheduleReconnect
    split_ifs with h1
    · exfalso
      rcases h1 with h1 | h1
      · exact h1 hcf
      · have h2 : s.reconnectPending = true := h1
        rw [hp] at h2
        exact absurd h2 (by decide)
    · exact ⟨rfl, rfl, rfl⟩
  · intro s t hp
    simp only [tstep]
    unfold scheduleReconnect
    split_ifs with h1
    · exact ⟨rfl, rfl⟩
    · exfalso
      exact h1 (Or.inr hp)

/-- C5 witness: the theorem applied at a fresh transport and a concrete
no-open run. -/
theorem C5_reconnect_backoff_witness :
    (tstep demoTransport (TEv.sockClose 0)).2 =
      [TEff.scheduleReconnect demoTransport.reconnectDelayMs] ∧
    List.Pairwise (· ≤ ·) (schedDelays (trun demoTransport demoTrace5).2) ∧
    (tstep demoTransport (TEv.sockOpen 5)).1.reconnectDelayMs = RECONNECT_BASE_MS :=
  ⟨(C5_reconnect_backoff.1 demoTransport 0 rfl rfl).1,
    C5_reconnect_backoff.2.2.2.1 demoTransport demoTrace5 (by decide) (by decide),
    C5_reconnect_backoff.2.2.2.2 demoTransport 5⟩

end ClaimC5

section ClaimC7

/-- A concrete run: an error, a close, the reconnect firing, and a
second error on the new attempt — no `open` anywhere. -/
def demoTrace7 : List TEv :=
  [TEv.sockError 0, TEv.sockClose 1, TEv.reconnectFire 1501, TEv.sockError 1502]

/-- C7 counterexample — with no `open` event in the run, two errors are
nevertheless both reported, because `connect()` (run by the reconnect
timer) clears the error-notified flag at the start of every attempt. -/
theorem C7_counterexample :
    demoTrace7.all (fun e => !(isSockOpen e)) = true ∧
    logCount (trun demoTransport demoTrace7).2 = 2 := by
  exact ⟨rfl, rfl⟩

/-- On a close, the error-notified flag is unchanged and nothing is
logged. -/
theorem tstep_close_flag (s : Transport) (t : Int) :
    (tstep s (TEv.sockClose t)).1.wsErrorNotified = s.wsErrorNotified ∧
    logCount (tstep s (TEv.sockClose t)).2 = 0 := by
  simp only [tstep]
  unfold scheduleReconnect
  split_ifs with h1
  · exact ⟨rfl, rfl⟩
  · exact ⟨rfl, rfl⟩

/-- An error with the flag already set logs nothing and keeps the flag. -/
theorem tstep_error_flag (s : Transport) (t : Int) (h : s.wsErrorNotified = true) :
    (tstep s (TEv.sockError t)).1.wsErrorNotified = true ∧
    (tstep s (TEv.sockError t)).2 = [] := by
  simp only [tstep]
  rw [if_neg (by rw [h]; decide)]
  exact ⟨h, rfl⟩

/-- A status-debounce firing touches neither the flag nor the log. -/
theorem tstep_statusFire_flag (s : Transport) (t : Int) :
    (tstep s (TEv.statusFire t)).1.wsErrorNotified = s.wsErrorNotified ∧
    (tstep s (TEv.statusFire t)).2 = [] := by
  simp only [tstep]
  cases hp : s.statusPending with
  | none => exact ⟨rfl, rfl⟩
  | some v =>
    obtain ⟨st, dl⟩ := v
    exact ⟨rfl, rfl⟩

/-- Once the error-notified flag is set, a run of further errors, closes
and status fires (no open, no reconnect attempt) reports nothing. -/
theorem logFree_of_notified (es : List TEv) : ∀ s : Transport,
    s.wsErrorNotified = true →
    (∀ e ∈ es, (∃ t, e = TEv.sockError t) ∨ (∃ t, e = TEv.sockClose t) ∨
      (∃ t, e = TEv.statusFire t)) →
    logCount (trun s es).2 = 0 := by
  induction es with
  | nil => intro s _ _; simp [trun, logCount]
  | cons e es ih =>
    intro s hflag hmem
    have hrest := fun x hx => hmem x (List.mem_cons_of_mem e hx)
    simp only [trun, logCount_append]
    rcases hmem e (List.mem_cons_self e es) with ⟨t, rfl⟩ | ⟨t, rfl⟩ | ⟨t, rfl⟩
    · have h1 := tstep_error_flag s t hflag
      rw [h1.2, ih (tstep s (TEv.sockError t)).1 h1.1 hrest]
      rfl
    · have h1 := tstep_close_flag s t
      rw [h1.2, ih (tstep s (TEv.sockClose t)).1 (h1.1.trans hflag) hrest]
    · have h1 := tstep_statusFire_flag s t
      rw [h1.2, ih (tstep s (TEv.statusFire t)).1 (h1.1.trans hflag) hrest]
      rfl

/-- C7 (amended) — the first socket error after a connection attempt is
reported and sets the notified flag; an error with the flag set is
suppressed, and nothing at all is reported across further errors, closes
and status fires until the next connect attempt; the flag is cleared by
a successful `open` and also by the reconnect timer firing (a new
connect attempt) whenever a configuration is present — so suppression
lasts only until the next attempt, not until a successful open. -/
theorem C7_error_reported_once_per_attempt :
    (∀ (s : Transport) (t : Int), s.wsErrorNotified = false →
      (tstep s (TEv.sockError t)).2 = [TEff.logError] ∧
      (tstep s (TEv.sockError t)).1.wsErrorNotified = true) ∧
    (∀ (s : Transport) (t : Int), s.wsErrorNotified = true →
      (tstep s (TEv.sockError t)).2 = []) ∧
    (∀ (s : Transport) (es : List TEv), s.wsErrorNotified = true →
      (∀ e ∈ es, (∃ t, e = TEv.sockError t) ∨ (∃ t, e = TEv.sockClose t) ∨
        (∃ t, e = TEv.statusFire t)) →
      logCount (trun s es).2 = 0) ∧
    (∀ (s : Transport) (t : Int),
      (tstep s (TEv.sockOpen t)).1.wsErrorNotified = false) ∧
    (∀ (s : Transport) (t : Int), s.hasConfig = true →
      (tstep s (TEv.reconnectFire t)).1.wsErrorNotified = false) := by
  refine ⟨?_, ?_, fun s es h1 h2 => logFree_of_notified es s h1 h2,
    fun s t => rfl, ?_⟩
  · intro s t h
    simp only [tstep]
    rw [if_pos h]
    exact ⟨rfl, rfl⟩
  · intro s t h
    exact (tstep_error_flag s t h).2
  · intro s t h
    simp only [tstep, connect]
    rw [if_neg (by rw [h]; decide)]

/-- C7 witness for the amended theorem: applied at the fresh transport
(first error logs) and at the notified state over a concrete no-attempt
run (nothing further logs). -/
theorem C7_error_reported_once_witness :
    (tstep demoTransport (TEv.sockError 0)).2 = [TEff.logError] ∧
    logCount (trun {demoTransport with wsErrorNotified := true}
      [TEv.sockError 3, TEv.sockClose 4, TEv.statusFire 603]).2 = 0 ∧
    (tstep {demoTransport with wsErrorNotified := true} (TEv.reconnectFire 9)).1.wsErrorNotified = false :=
  ⟨(C7_error_reported_once_per_attempt.1 demoTransport 0 rfl).1,
    C7_error_reported_once_per_attempt.2.2.1 {demoTransport with wsErrorNotified := true}
      [TEv.sockError 3, TEv.sockClose 4, TEv.statusFire 603] rfl
      (by
        intro e he
        simp only [List.mem_cons, List.mem_singleton] at he
        rcases he with rfl | rfl | rfl | h
        · exact Or.inl ⟨3, rfl⟩
        · exact Or.inr (Or.inl ⟨4, rfl⟩)
        · exact Or.inr (Or.inr ⟨603, rfl⟩)
        · exact absurd h (List.not_mem_nil e)),
    C7_error_reported_once_per_attempt.2.2.2.2 {demoTransport with wsErrorNotified := true} 9 rfl⟩

end ClaimC7

section ClaimC6

/-- Every socket error at time `t` in the run is eventually followed by
a successful open strictly inside the damping window, with every event
in between also inside the window. -/
def ErrRescued (es : List TEv) : Prop :=
  ∀ pre t post, es = pre ++ TEv.sockError t :: post →
    ∃ mid t2 rest, post = mid ++ TEv.sockOpen t2 :: rest ∧
      (∀ e ∈ mid, timeOf e < t + STATUS_DEBOUNCE_MS) ∧
      t2 < t + STATUS_DEBOUNCE_MS

/-- If an `error` display is pending with deadline `d`, the remaining
events reach an open before time `d` (with all earlier events before
`d`). -/
def PendOk (s : Transport) (es : List TEv) : Prop :=
  ∀ d, s.statusPending = some (CStatus.error, d) →
    ∃ mid t2 rest, es = mid ++ TEv.sockOpen t2 :: rest ∧
      (∀ e ∈ mid, timeOf e < d) ∧ t2 < d

/-- A close leaves the display unchanged and re-arms the debounce with
`connecting`. -/
theorem tstep_close_status (s : Transport) (t : Int) :
    (tstep s (TEv.sockClose t)).1.statusDisplay = s.statusDisplay ∧
    (tstep s (TEv.sockClose t)).1.statusPending =
      some (CStatus.connecting, t + STATUS_DEBOUNCE_MS) := by
  simp only [tstep]
  unfold scheduleReconnect
  split_ifs with h1
  · exact ⟨rfl, rfl⟩
  · exact ⟨rfl, rfl⟩

/-- An error leaves the display unchanged and re-arms the debounce with
`error`. -/
theorem tstep_error_status (s : Transport) (t : Int) :
    (tstep s (TEv.sockError t)).1.statusDisplay = s.statusDisplay ∧
    (tstep s (TEv.sockError t)).1.statusPending =
      some (CStatus.error, t + STATUS_DEBOUNCE_MS) := by
  simp only [tstep]
  split_ifs with h1
  · exact ⟨rfl, rfl⟩
  · exact ⟨rfl, rfl⟩

/-- A reconnect attempt leaves the display unchanged and re-arms the
debounce with `connecting` or `disconnected`. -/
theorem tstep_reconnectFire_status (s : Transport) (t : Int) :
    (tstep s (TEv.reconnectFire t)).1.statusDisplay = s.statusDisplay ∧
    ((tstep s (TEv.reconnectFire t)).1.statusPending =
        some (CStatus.disconnected, t + STATUS_DEBOUNCE_MS) ∨
      (tstep s (TEv.reconnectFire t)).1.statusPending =
        some (CStatus.connecting, t + STATUS_DEBOUNCE_MS)) := by
  simp only [tstep, connect]
  split_ifs with h1
  · exact ⟨rfl, Or.inr rfl⟩
  · exact ⟨rfl, Or.inl rfl⟩

/-- A debounce firing installs the pending value and clears the timer. -/
theorem tstep_fire_status (s : Transport) (t : Int) (st : CStatus) (dv : Int)
    (h : s.statusPending = some (st, dv)) :
    (tstep s (TEv.statusFire t)).1.statusDisplay = st ∧
    (tstep s (TEv.statusFire t)).1.statusPending = none := by
  simp [tstep, h]

/-- Core induction for C6: in a timer-valid run where every error is
rescued by an open within the damping window, the displayed status is
never `error` at any point of the run. -/
theorem display_never_error (es : List TEv) : ∀ s : Transport,
    s.statusDisplay ≠ CStatus.error → PendOk s es → ErrRescued es →
    validRun s es →
    ∀ s2 ∈ statesAlong s es, s2.statusDisplay ≠ CStatus.error := by
  induction es with
  | nil =>
    intro s hd _ _ _ s2 hs2
    simp only [statesAlong, List.mem_singleton] at hs2
    rw [hs2]
    exact hd
  | cons e es ih =>
    intro s hd hpend hres hval s2 hs2
    simp only [statesAlong, List.mem_cons] at hs2
    rcases hs2 with rfl | hs2
    · exact hd
    · have hres2 : ErrRescued es := by
        intro pre t post hh
        exact hres (e :: pre) t post (by rw [hh]; rfl)
      cases e with
      | sockOpen t =>
        refine ih (tstep s (TEv.sockOpen t)).1 ?_ ?_ hres2 hval.2 s2 hs2
        · intro hcon
          exact nomatch (hcon : CStatus.connected = CStatus.error)
        · intro d hd2
          exact nomatch (hd2 : (none : Option (CStatus × Int)) = some (CStatus.error, d))
      | sockClose t =>
        have hstat := tstep_close_status s t
        refine ih _ ?_ ?_ hres2 hval.2 s2 hs2
        · rw [hstat.1]; exact hd
        · intro d hd2
          rw [hstat.2] at hd2
          simp at hd2
      | sockError t =>
        have hstat := tstep_error_status s t
        refine ih _ ?_ ?_ hres2 hval.2 s2 hs2
        · rw [hstat.1]; exact hd
        · intro d hd2
          rw [hstat.2] at hd2
          simp only [Option.some.injEq, Prod.mk.injEq] at hd2
          obtain ⟨mid, t2, rest, h1, h2, h3⟩ := hres [] t es rfl
          refine ⟨mid, t2, rest, h1, ?_, ?_⟩
          · intro x hx
            rw [← hd2.2]
            exact h2 x hx
          · rw [← hd2.2]
            exact h3
      | reconnectFire t =>
        have hstat := tstep_reconnectFire_status s t
        refine ih _ ?_ ?_ hres2 hval.2 s2 hs2
        · rw [hstat.1]; exact hd
        · intro d hd2
          rcases hstat.2 with hp | hp <;> rw [hp] at hd2 <;> simp at hd2
      | statusFire t =>
        obtain ⟨st, dv, hpendEq, hteq⟩ := hval.1 t rfl
        subst hteq
        by_cases hst : st = CStatus.error
        · subst hst
          exfalso
          obtain ⟨mid, t2, rest, h1, h2, h3⟩ := hpend t hpendEq
          cases mid with
          | nil => simp at h1
          | cons m ms =>
            rw [List.cons_append] at h1
            injection h1 with hm1 hm2
            have hm := h2 m (List.mem_cons_self m ms)
            rw [← hm1] at hm
            exact lt_irrefl t hm
        · have hstat := tstep_fire_status s t st t hpendEq
          refine ih _ ?_ ?_ hres2 hval.2 s2 hs2
          · rw [hstat.1]; exact hst
          · intro d hd2
            rw [hstat.2] at hd2
            simp at hd2

/-- C6 — a transition into `connected` updates the displayed status
immediately; a transition into any other status leaves the display
unchanged and arms the damping timer for the 600 ms window (so the
display changes only if no further transition cancels it first); and in
any timer-valid run in which every `error` transition is followed by a
successful open strictly within the damping window, the value `error`
is never displayed. -/
theorem C6_display_debounce :
    (∀ (s : Transport) (t : Int),
      (setStatus s CStatus.connected t).statusDisplay = CStatus.connected) ∧
    (∀ (s : Transport) (st : CStatus) (t : Int), st ≠ CStatus.connected →
      (setStatus s st t).statusDisplay = s.statusDisplay ∧
      (setStatus s st t).statusPending = some (st, t + STATUS_DEBOUNCE_MS)) ∧
    (∀ (es : List TEv) (s : Transport),
      s.statusDisplay ≠ CStatus.error → PendOk s es → ErrRescued es →
      validRun s es →
      CStatus.error ∉ (statesAlong s es).map (fun x => x.statusDisplay)) := by
  refine ⟨?_, ?_, ?_⟩
  · intro s t
    rw [setStatus_eq, if_pos rfl]
  · intro s st t hst
    rw [setStatus_eq, if_neg hst]
    exact ⟨rfl, rfl⟩
  · intro es s hd hpend hres hval hmem
    rw [List.mem_map] at hmem
    obtain ⟨s2, hs2, hdisp⟩ := hmem
    exact display_never_error es s hd hpend hres hval s2 hs2 hdisp

/-- A concrete run: an error immediately rescued by an open inside the
damping window. -/
def demoTrace6 : List TEv := [TEv.sockError 0, TEv.sockOpen 100]

/-- The demo run rescues its only error within the window. -/
theorem demoTrace6_rescued : ErrRescued demoTrace6 := by
  intro pre t post h
  rcases pre with _ | ⟨a, _ | ⟨b, pre⟩⟩
  · simp only [demoTrace6, List.nil_append, List.cons.injEq] at h
    obtain ⟨h1, h2⟩ := h
    injection h1 with ht
    subst ht
    subst h2
    refine ⟨[], 100, [], rfl, ?_, ?_⟩
    · intro e he
      exact absurd he (List.not_mem_nil e)
    · decide
  · simp [demoTrace6] at h
  · simp [demoTrace6] at h

/-- C6 witness: the theorem applied at the fresh transport and the demo
run — `error` never reaches the display. -/
theorem C6_display_debounce_witness :
    CStatus.error ∉ (statesAlong demoTransport demoTrace6).map (fun x => x.statusDisplay) :=
  C6_display_debounce.2.2 demoTrace6 demoTransport (fun h => nomatch h)
    (fun d h => nomatch h) demoTrace6_rescued
    (by simp [demoTrace6, validRun])

end ClaimC6

section GestureEpisodeLemmas

/-- A state with no active gesture: no contacts, no gesture mode, no
drag, no hold timer, unlocked. -/
def PreTap (c : Card) : Prop :=
  c.pointers = [] ∧ c.gesture = none ∧ c.dragPointerId = none ∧
  c.holdTimer = none ∧ c.locked = false

/-- Every event in the list is a move of contact `id`. -/
def MovesOf (id : Nat) (es : List Ev) : Prop :=
  ∀ e ∈ es, ∃ x y τ, e = Ev.pmove id x y τ

/-- A pointer-down on an empty tracker: the contact is created, the
gesture becomes `move`, the hold timer is armed for touch/pen. -/
theorem pdown_from_empty (c : Card) (id : Nat) (x y : ℚ) (τ : PType) (now : Int)
    (h : PreTap c) :
    handlePointerDown c id x y τ now =
      ({c with pointers := [⟨id, x, y, x, y, now⟩],
               gesture := some Gesture.move,
               holdTimer := if τ ≠ PType.touch ∧ τ ≠ PType.pen then none
                            else some (now + HOLD_DELAY_MS, id)}, []) := by
  obtain ⟨hp, hg, hd, hh, hl⟩ := h
  unfold handlePointerDown
  rw [if_neg (by rw [hl]; exact Bool.false_ne_true)]
  rw [hp]
  simp only [mapSet, List.length_singleton, if_true, startHoldTimer_eq, hh]

/-- Dispatch of a move to its core once the contact lookup succeeds. -/
theorem handlePointerMove_some (c : Card) (p : Pointer) (id : Nat) (x y : ℚ)
    (τ : PType) (hl : c.locked = false) (hget : mapGet c.pointers id = some p) :
    handlePointerMove c id x y τ = pointerMoveCore c p id x y := by
  unfold handlePointerMove
  rw [if_neg (by rw [hl]; exact Bool.false_ne_true), hget]

/-- The move core on a single contact in `move` mode: position update,
conditional hold-timer cancellation, move accumulation, no effects. -/
theorem pointerMoveCore_single_eq (c : Card) (p : Pointer) (x y : ℚ)
    (hp : c.pointers = [p]) (hg : c.gesture = some Gesture.move) :
    ∃ acc : ℚ × ℚ,
      pointerMoveCore c p p.id x y =
        ({c with pointers := [{p with x := x, y := y}],
                 holdTimer := if c.holdTimer ≠ none ∧
                      ¬ hypotLe (x - p.startX) (y - p.startY) HOLD_CANCEL_PX
                    then none else c.holdTimer,
                 moveAccum := acc, rafQueued := true}, []) := by
  refine ⟨(c.moveAccum.1 +
      ((centroid [{p with x := x, y := y}]).1 - (centroid [p]).1) *
        (c.opts.sensitivity * c.speedMultiplier),
    c.moveAccum.2 +
      ((centroid [{p with x := x, y := y}]).2 - (centroid [p]).2) *
        (c.opts.sensitivity * c.speedMultiplier)), ?_⟩
  unfold pointerMoveCore
  rw [hp]
  simp only [mapSet, eq_self_iff_true, if_true, List.length_singleton,
    cancelHoldTimer]
  split_ifs <;> first | rfl | omega | simp_all

/-- First projection of a run step. -/
theorem runEvs_cons_fst (c : Card) (e : Ev) (es : List Ev) :
    (runEvs c (e :: es)).1 = (runEvs (stepEv c e).1 es).1 := rfl

/-- Second projection of a run step. -/
theorem runEvs_cons_snd (c : Card) (e : Ev) (es : List Ev) :
    (runEvs c (e :: es)).2 = (stepEv c e).2 ++ (runEvs (stepEv c e).1 es).2 := rfl

/-- Projection facts for a move of the only contact in `move` mode. -/
theorem pmove_single_facts (c : Card) (p : Pointer) (x y : ℚ) (τ : PType)
    (hl : c.locked = false) (hp : c.pointers = [p])
    (hg : c.gesture = some Gesture.move) :
    (handlePointerMove c p.id x y τ).2 = [] ∧
    (handlePointerMove c p.id x y τ).1.pointers = [{p with x := x, y := y}] ∧
    (handlePointerMove c p.id x y τ).1.gesture = some Gesture.move ∧
    (handlePointerMove c p.id x y τ).1.dragPointerId = c.dragPointerId ∧
    (handlePointerMove c p.id x y τ).1.tapTimer = c.tapTimer ∧
    (handlePointerMove c p.id x y τ).1.lastTapTime = c.lastTapTime ∧
    (handlePointerMove c p.id x y τ).1.locked = false ∧
    (handlePointerMove c p.id x y τ).1.socketOpen = c.socketOpen ∧
    (handlePointerMove c p.id x y τ).1.opts = c.opts ∧
    (hypotLe (x - p.startX) (y - p.startY) HOLD_CANCEL_PX →
      (handlePointerMove c p.id x y τ).1.holdTimer = c.holdTimer) := by
  have hget : mapGet c.pointers p.id = some p := by rw [hp]; simp [mapGet]
  rw [handlePointerMove_some c p p.id x y τ hl hget]
  obtain ⟨acc, heq⟩ := pointerMoveCore_single_eq c p x y hp hg
  rw [heq]
  refine ⟨rfl, rfl, hg, rfl, rfl, rfl, hl, rfl, rfl, ?_⟩
  intro hle
  exact if_neg (fun h => h.2 hle)

/-- Running any list of moves of the single tracked contact emits
nothing and preserves every tap-relevant field; the surviving contact
keeps its id and start fields. -/
theorem runMoves_single (es : List Ev) : ∀ (c : Card) (p : Pointer),
    MovesOf p.id es → c.locked = false → c.pointers = [p] →
    c.gesture = some Gesture.move →
    ∃ q : Pointer, q.id = p.id ∧ q.startX = p.startX ∧ q.startY = p.startY ∧
      q.startTime = p.startTime ∧
      (runEvs c es).2 = [] ∧
      (runEvs c es).1.pointers = [q] ∧
      (runEvs c es).1.gesture = some Gesture.move ∧
      (runEvs c es).1.dragPointerId = c.dragPointerId ∧
      (runEvs c es).1.tapTimer = c.tapTimer ∧
      (runEvs c es).1.lastTapTime = c.lastTapTime ∧
      (runEvs c es).1.locked = false ∧
      (runEvs c es).1.socketOpen = c.socketOpen ∧
      (runEvs c es).1.opts = c.opts := by
  induction es with
  | nil =>
    intro c p _ hl hp hg
    exact ⟨p, rfl, rfl, rfl, rfl, rfl, hp, hg, rfl, rfl, rfl, hl, rfl, rfl⟩
  | cons e es ih =>
    intro c p hms hl hp hg
    obtain ⟨x, y, τ, rfl⟩ := hms e (List.mem_cons_self e es)
    obtain ⟨f_out, f_ptr, f_ges, f_drag, f_tap, f_last, f_lok, f_sock, f_opts,
      f_hold⟩ := pmove_single_facts c p x y τ hl hp hg
    obtain ⟨q, hq1, hq2, hq3, hq4, hout, hptr, hges, hdrag, htap, hlast, hlok,
      hsock, hopts⟩ :=
      ih (stepEv c (Ev.pmove p.id x y τ)).1 ({p with x := x, y := y})
        (fun e2 he2 => hms e2 (List.mem_cons_of_mem _ he2)) f_lok f_ptr f_ges
    refine ⟨q, hq1, hq2, hq3, hq4, ?_, hptr, hges, ?_, ?_, ?_, hlok, ?_, ?_⟩
    · rw [runEvs_cons_snd, hout, List.append_nil]
      exact f_out
    · rw [runEvs_cons_fst, hdrag]
      exact f_drag
    · rw [runEvs_cons_fst, htap]
      exact f_tap
    · rw [runEvs_cons_fst, hlast]
      exact f_last
    · rw [runEvs_cons_fst, hsock]
      exact f_sock
    · rw [runEvs_cons_fst, hopts]
      exact f_opts

/-- Dispatch of a pointer-up with no drag engaged. -/
theorem handlePointerUp_some_nodrag (c : Card) (p : Pointer) (id : Nat)
    (x y : ℚ) (now : Int) (hl : c.locked = false)
    (hget : mapGet c.pointers id = some p) (hd : c.dragPointerId = none) :
    handlePointerUp c id x y now = pointerUpCore c p id x y now false := by
  unfold handlePointerUp
  rw [if_neg (by rw [hl]; exact Bool.false_ne_true), hget, hd]
  rfl

/-- Dispatch of a pointer-up of the dragging contact. -/
theorem handlePointerUp_some_drag (c : Card) (p : Pointer) (id : Nat)
    (x y : ℚ) (now : Int) (hl : c.locked = false)
    (hget : mapGet c.pointers id = some p) (hd : c.dragPointerId = some id) :
    handlePointerUp c id x y now =
      ((pointerUpCore {c with dragPointerId := none} p id x y now true).1,
        sendButton c Msg.up ++
          (pointerUpCore {c with dragPointerId := none} p id x y now true).2) := by
  unfold handlePointerUp
  rw [if_neg (by rw [hl]; exact Bool.false_ne_true), hget, hd]
  rw [show (decide ((some id : Option Nat) = some id)) = true from by simp]
  rfl

/-- The up core for the last contact, qualifying as a tap: the double
branch fires immediately, the single branch records the tap and arms
the tap timer. -/
theorem pointerUpCore_single_tap (c : Card) (p : Pointer) (x y : ℚ) (now : Int)
    (hp : c.pointers = [p]) (hg : c.gesture = some Gesture.move)
    (hdist : hypotLe (x - p.startX) (y - p.startY) c.opts.tapSuppressionPx)
    (hdur : now - p.startTime ≤ c.opts.doubleTapMs)
    (uid : Nat) (hid : p.id = uid) :
    (now - c.lastTapTime ≤ c.opts.doubleTapMs →
      pointerUpCore c p uid x y now false =
        ({c with holdTimer := none, pointers := [], tapTimer := none,
                 lastTapTime := 0, gesture := none}, sendTap c Msg.double_click)) ∧
    (¬ now - c.lastTapTime ≤ c.opts.doubleTapMs →
      pointerUpCore c p uid x y now false =
        ({c with holdTimer := none, pointers := [], lastTapTime := now,
                 tapTimer := some (now + c.opts.doubleTapMs),
                 gesture := none}, [])) := by
  subst hid
  constructor <;> intro h2 <;>
    (unfold pointerUpCore pointerUpTail
     simp only [cancelHoldTimer, hp, mapDelete, eq_self_iff_true, if_true,
       List.length_singleton, List.length_nil]
     split_ifs <;> simp_all [sendTap])

/-- The up core when a drag was engaged on the lifted (only) contact:
no tap is considered, the gesture simply ends. -/
theorem pointerUpCore_single_drag (c : Card) (p : Pointer) (x y : ℚ)
    (now : Int) (hp : c.pointers = [p]) (uid : Nat) (hid : p.id = uid) :
    pointerUpCore c p uid x y now true =
      ({c with holdTimer := none, pointers := [], gesture := none}, []) := by
  subst hid
  unfold pointerUpCore pointerUpTail
  simp only [cancelHoldTimer, hp, mapDelete, eq_self_iff_true, if_true,
    List.length_singleton, List.length_nil]
  split_ifs <;> simp_all

/-- The up core for one of exactly two contacts when both are within the
tap radius and inside the double-tap window: a two-finger tap, ending
the gesture with a single `right_click`. -/
theorem pointerUpCore_two_rightclick (c : Card) (q rem : Pointer) (uid : Nat)
    (x y : ℚ) (now : Int)
    (hlen : c.pointers.length = 2)
    (hdel : mapDelete c.pointers uid = [rem])
    (h1 : hypotLe (x - q.startX) (y - q.startY) c.opts.tapSuppressionPx)
    (h2 : hypotLe (rem.x - rem.startX) (rem.y - rem.startY) c.opts.tapSuppressionPx)
    (h3 : now - min q.startTime rem.startTime ≤ c.opts.doubleTapMs)
    (w : Bool) :
    pointerUpCore c q uid x y now w =
      ({c with holdTimer := none, pointers := [], gesture := none},
        sendTap c Msg.right_click) := by
  unfold pointerUpCore
  simp only [cancelHoldTimer, hdel, hlen, eq_self_iff_true, if_true,
    List.head?_cons]
  rw [if_pos ⟨h1, h2, h3⟩]
  simp [sendTap]

/-- Looking up the only contact by its id. -/
theorem mapGet_singleton (q : Pointer) (uid : Nat) (hid : q.id = uid) :
    mapGet [q] uid = some q := by
  simp [mapGet, hid]

/-- A contact that has not moved is within the cancellation radius. -/
theorem hypotLe_self (a b : ℚ) : hypotLe (a - a) (b - b) HOLD_CANCEL_PX := by
  unfold hypotLe HOLD_CANCEL_PX
  norm_num

/-- `sendButton` over an open socket. -/
theorem sendButton_open (c : Card) (m : Msg) (h : c.socketOpen = true) :
    sendButton c m = [Eff.call m, Eff.wire m] := by
  unfold sendButton
  rw [h]
  rfl

/-- `sendTap` over an open socket. -/
theorem sendTap_open (c : Card) (m : Msg) (h : c.socketOpen = true) :
    sendTap c m = [Eff.call m, Eff.wire m] := by
  unfold sendTap
  rw [h]
  rfl

/-- The tap-timer callback when armed. -/
theorem fireTapTimer_some (c : Card) (d : Int) (ht : c.tapTimer = some d) :
    fireTapTimer c = ({c with lastTapTime := 0, tapTimer := none},
      sendTap c Msg.click) := by
  unfold fireTapTimer
  rw [ht]

/-- The hold-timer callback engaging the drag: single contact, `move`
gesture, no drag yet, contact within the cancellation radius. -/
theorem fireHoldTimer_engage (c : Card) (p : Pointer) (d : Int) (uid : Nat)
    (hh : c.holdTimer = some (d, uid)) (hget : mapGet c.pointers uid = some p)
    (hlen : c.pointers.length = 1) (hg : c.gesture = some Gesture.move)
    (hd : c.dragPointerId = none)
    (hdist : hypotLe (p.x - p.startX) (p.y - p.startY) HOLD_CANCEL_PX) :
    fireHoldTimer c = ({c with dragPointerId := some uid, holdTimer := none},
      sendButton c Msg.down ++ [Eff.haptic]) := by
  unfold fireHoldTimer
  rw [hh]
  simp only [hget]
  rw [if_pos ⟨hlen, hg, hd, hdist⟩]

/-- Every event in the list is a move of contact `id` staying within the
hold-cancellation radius of the start position. -/
def MovesWithin (id : Nat) (x0 y0 : ℚ) (es : List Ev) : Prop :=
  ∀ e ∈ es, ∃ x y τ, e = Ev.pmove id x y τ ∧
    hypotLe (x - x0) (y - y0) HOLD_CANCEL_PX

/-- Running moves of the single tracked contact that all stay within the
cancellation radius additionally preserves the hold timer, and the
surviving contact is still within the radius. -/
theorem runMovesWithin_single (es : List Ev) : ∀ (c : Card) (p : Pointer),
    MovesWithin p.id p.startX p.startY es → c.locked = false →
    c.pointers = [p] → c.gesture = some Gesture.move →
    hypotLe (p.x - p.startX) (p.y - p.startY) HOLD_CANCEL_PX →
    ∃ q : Pointer, q.id = p.id ∧ q.startX = p.startX ∧ q.startY = p.startY ∧
      q.startTime = p.startTime ∧
      hypotLe (q.x - q.startX) (q.y - q.startY) HOLD_CANCEL_PX ∧
      (runEvs c es).2 = [] ∧
      (runEvs c es).1.pointers = [q] ∧
      (runEvs c es).1.gesture = some Gesture.move ∧
      (runEvs c es).1.dragPointerId = c.dragPointerId ∧
      (runEvs c es).1.holdTimer = c.holdTimer ∧
      (runEvs c es).1.tapTimer = c.tapTimer ∧
      (runEvs c es).1.lastTapTime = c.lastTapTime ∧
      (runEvs c es).1.locked = false ∧
      (runEvs c es).1.socketOpen = c.socketOpen ∧
      (runEvs c es).1.opts = c.opts := by
  induction es with
  | nil =>
    intro c p _ hl hp hg hr
    exact ⟨p, rfl, rfl, rfl, rfl, hr, rfl, hp, hg, rfl, rfl, rfl, rfl, hl,
      rfl, rfl⟩
  | cons e es ih =>
    intro c p hms hl hp hg hr
    obtain ⟨x, y, τ, rfl, hin⟩ := hms e (List.mem_cons_self e es)
    obtain ⟨f_out, f_ptr, f_ges, f_drag, f_tap, f_last, f_lok, f_sock, f_opts,
      f_hold⟩ := pmove_single_facts c p x y τ hl hp hg
    obtain ⟨q, hq1, hq2, hq3, hq4, hq5, hout, hptr, hges, hdrag, hhold, htap,
      hlast, hlok, hsock, hopts⟩ :=
      ih (stepEv c (Ev.pmove p.id x y τ)).1 ({p with x := x, y := y})
        (fun e2 he2 => hms e2 (List.mem_cons_of_mem _ he2)) f_lok f_ptr f_ges hin
    refine ⟨q, hq1, hq2, hq3, hq4, hq5, ?_, hptr, hges, ?_, ?_, ?_, ?_, hlok,
      ?_, ?_⟩
    · rw [runEvs_cons_snd, hout, List.append_nil]
      exact f_out
    · rw [runEvs_cons_fst, hdrag]
      exact f_drag
    · rw [runEvs_cons_fst, hhold]
      exact f_hold hin
    · rw [runEvs_cons_fst, htap]
      exact f_tap
    · rw [runEvs_cons_fst, hlast]
      exact f_last
    · rw [runEvs_cons_fst, hsock]
      exact f_sock
    · rw [runEvs_cons_fst, hopts]
      exact f_opts

/-- First projection of a run split at an append. -/
theorem runEvs_append_fst (c : Card) (a b : List Ev) :
    (runEvs c (a ++ b)).1 = (runEvs (runEvs c a).1 b).1 := by
  rw [runEvs_append]

/-- Second projection of a run split at an append. -/
theorem runEvs_append_snd (c : Card) (a b : List Ev) :
    (runEvs c (a ++ b)).2 = (runEvs c a).2 ++ (runEvs (runEvs c a).1 b).2 := by
  rw [runEvs_append]

end GestureEpisodeLemmas

section ClaimC3

/-- Running an engaged-hold episode from a state with one tracked
contact still inside the cancellation radius and an armed hold timer:
in-radius moves, the hold firing, arbitrary further moves of the same
contact, then its lift.  The run emits exactly the `down` attempt and
wire, the haptic pulse, and the `up` attempt and wire; the tap timer is
untouched and the drag is released. -/
theorem holdRun (c1 : Card) (pre post : List Ev) (id : Nat) (p : Pointer)
    (d : Int)
    (hp : c1.pointers = [p]) (hid : p.id = id)
    (hg : c1.gesture = some Gesture.move)
    (hh : c1.holdTimer = some (d, id)) (hd : c1.dragPointerId = none)
    (hl : c1.locked = false) (hs : c1.socketOpen = true)
    (hr : hypotLe (p.x - p.startX) (p.y - p.startY) HOLD_CANCEL_PX)
    (hpre : MovesWithin id p.startX p.startY pre) (hpost : MovesOf id post)
    (xu yu : ℚ) (tu : Int) :
    (runEvs c1 (pre ++ Ev.holdFire :: (post ++ [Ev.pup id xu yu tu]))).2 =
      [Eff.call Msg.down, Eff.wire Msg.down, Eff.haptic,
       Eff.call Msg.up, Eff.wire Msg.up] ∧
    (runEvs c1 (pre ++ Ev.holdFire :: (post ++ [Ev.pup id xu yu tu]))).1.tapTimer
      = c1.tapTimer ∧
    (runEvs c1 (pre ++ Ev.holdFire :: (post ++ [Ev.pup id xu yu tu]))).1.dragPointerId
      = none := by
  obtain ⟨q, hq1, hq2, hq3, hq4, hq5, hpout, hpptr, hpges, hpdrag, hphold,
      hptap, hplast, hplok, hpsock, hpopts⟩ :=
    runMovesWithin_single pre c1 p (by rw [hid]; exact hpre) hl hp hg hr
  have hstep3 : stepEv (runEvs c1 pre).1 Ev.holdFire =
      ({(runEvs c1 pre).1 with dragPointerId := some id, holdTimer := none},
        sendButton (runEvs c1 pre).1 Msg.down ++ [Eff.haptic]) := by
    show fireHoldTimer (runEvs c1 pre).1 = _
    exact fireHoldTimer_engage (runEvs c1 pre).1 q d id (hphold.trans hh)
      (by rw [hpptr]; exact mapGet_singleton q id (by rw [hq1]; exact hid))
      (by rw [hpptr]; rfl) hpges (hpdrag.trans hd) hq5
  have hs3f : (stepEv (runEvs c1 pre).1 Ev.holdFire).1 =
      {(runEvs c1 pre).1 with dragPointerId := some id, holdTimer := none} := by
    rw [hstep3]
  have hs3s : (stepEv (runEvs c1 pre).1 Ev.holdFire).2 =
      sendButton (runEvs c1 pre).1 Msg.down ++ [Eff.haptic] := by
    rw [hstep3]
  obtain ⟨q2, hq2id, hq2sx, hq2sy, hq2st, hq2out, hq2ptr, hq2ges, hq2drag,
      hq2tap, hq2last, hq2lok, hq2sock, hq2opts⟩ :=
    runMoves_single post
      {(runEvs c1 pre).1 with dragPointerId := some id, holdTimer := none} q
      (by rw [hq1, hid]; exact hpost) hplok hpptr hpges
  have hupget : mapGet (runEvs {(runEvs c1 pre).1 with
      dragPointerId := some id, holdTimer := none} post).1.pointers id
      = some q2 := by
    rw [hq2ptr]
    exact mapGet_singleton q2 id (by rw [hq2id, hq1]; exact hid)
  have hupdrag : (runEvs {(runEvs c1 pre).1 with
      dragPointerId := some id, holdTimer := none} post).1.dragPointerId
      = some id := hq2drag
  have hstep5 : stepEv (runEvs {(runEvs c1 pre).1 with
        dragPointerId := some id, holdTimer := none} post).1
      (Ev.pup id xu yu tu) =
      ({{(runEvs {(runEvs c1 pre).1 with
            dragPointerId := some id, holdTimer := none} post).1 with
          dragPointerId := none} with
          holdTimer := none, pointers := [], gesture := none},
        sendButton (runEvs {(runEvs c1 pre).1 with
          dragPointerId := some id, holdTimer := none} post).1 Msg.up ++ [])
      := by
    show handlePointerUp _ id xu yu tu = _
    rw [handlePointerUp_some_drag _ q2 id xu yu tu hq2lok hupget hupdrag,
        pointerUpCore_single_drag
          {(runEvs {(runEvs c1 pre).1 with
            dragPointerId := some id, holdTimer := none} post).1 with
            dragPointerId := none}
          q2 xu yu tu hq2ptr id (by rw [hq2id, hq1]; exact hid)]
  have hs5f : (stepEv (runEvs {(runEvs c1 pre).1 with
        dragPointerId := some id, holdTimer := none} post).1
      (Ev.pup id xu yu tu)).1 =
      {{(runEvs {(runEvs c1 pre).1 with
          dragPointerId := some id, holdTimer := none} post).1 with
          dragPointerId := none} with
        holdTimer := none, pointers := [], gesture := none} := by
    rw [hstep5]
  have hs5s : (stepEv (runEvs {(runEvs c1 pre).1 with
        dragPointerId := some id, holdTimer := none} post).1
      (Ev.pup id xu yu tu)).2 =
      sendButton (runEvs {(runEvs c1 pre).1 with
        dragPointerId := some id, holdTimer := none} post).1 Msg.up ++ []
      := by
    rw [hstep5]
  rw [runEvs_append_snd, runEvs_append_fst, hpout, runEvs_cons_snd,
      runEvs_cons_fst, hs3s, hs3f, runEvs_append_snd, runEvs_append_fst,
      hq2out, runEvs_cons_snd, runEvs_cons_fst, hs5s, hs5f]
  simp only [runEvs]
  refine ⟨?_, ?_, ?_⟩
  · rw [sendButton_open _ Msg.down (hpsock.trans hs),
        sendButton_open _ Msg.up (hq2sock.trans (hpsock.trans hs))]
    rfl
  · exact hq2tap.trans hptap
  · trivial

/-- The full hold-to-drag episode: pointer-down, in-radius moves, the
hold timer firing, further moves, then the lift. -/
def holdEpisode (id : Nat) (x0 y0 : ℚ) (τ : PType) (t0 : Int)
    (pre post : List Ev) (xu yu : ℚ) (tu : Int) : List Ev :=
  Ev.pdown id x0 y0 τ t0 ::
    (pre ++ Ev.holdFire :: (post ++ [Ev.pup id xu yu tu]))

/-- C3 — a single touch or pen contact that stays within the 3 px
cancellation radius of its start until the hold timer fires, with no
second contact: exactly one `down` message goes to the open socket when
the timer fires (the drag engages), lifting the contact later sends
exactly one `up`, and no `click` or `double_click` is emitted for that
contact (the tap timer is untouched); the drag is released at the end. -/
theorem C3_hold_to_drag (c : Card) (id : Nat) (x0 y0 : ℚ) (τ : PType)
    (t0 : Int) (pre post : List Ev) (xu yu : ℚ) (tu : Int)
    (hq : PreTap c) (hopen : c.socketOpen = true)
    (hτ : τ = PType.touch ∨ τ = PType.pen)
    (hpre : MovesWithin id x0 y0 pre) (hpost : MovesOf id post) :
    effCount (Eff.wire Msg.down)
        (runEvs c (holdEpisode id x0 y0 τ t0 pre post xu yu tu)).2 = 1 ∧
    effCount (Eff.wire Msg.up)
        (runEvs c (holdEpisode id x0 y0 τ t0 pre post xu yu tu)).2 = 1 ∧
    effCount (Eff.wire Msg.click)
        (runEvs c (holdEpisode id x0 y0 τ t0 pre post xu yu tu)).2 = 0 ∧
    effCount (Eff.wire Msg.double_click)
        (runEvs c (holdEpisode id x0 y0 τ t0 pre post xu yu tu)).2 = 0 ∧
    (runEvs c (holdEpisode id x0 y0 τ t0 pre post xu yu tu)).1.tapTimer
      = c.tapTimer ∧
    (runEvs c (holdEpisode id x0 y0 τ t0 pre post xu yu tu)).1.dragPointerId
      = none := by
  obtain ⟨hp0, hg0, hd0, hh0, hl0⟩ := hq
  have hstep1 : stepEv c (Ev.pdown id x0 y0 τ t0) =
      ({c with
          pointers := [⟨id, x0, y0, x0, y0, t0⟩],
          gesture := some Gesture.move,
          holdTimer := some (t0 + HOLD_DELAY_MS, id)}, []) := by
    show handlePointerDown c id x0 y0 τ t0 = _
    rw [pdown_from_empty c id x0 y0 τ t0 ⟨hp0, hg0, hd0, hh0, hl0⟩]
    rcases hτ with h | h <;> subst h <;> simp
  have hs1f : (stepEv c (Ev.pdown id x0 y0 τ t0)).1 =
      {c with
        pointers := [⟨id, x0, y0, x0, y0, t0⟩],
        gesture := some Gesture.move,
        holdTimer := some (t0 + HOLD_DELAY_MS, id)} := by
    rw [hstep1]
  have hs1s : (stepEv c (Ev.pdown id x0 y0 τ t0)).2 = [] := by
    rw [hstep1]
  obtain ⟨hOut, hTap, hDrag⟩ :=
    holdRun {c with
        pointers := [⟨id, x0, y0, x0, y0, t0⟩],
        gesture := some Gesture.move,
        holdTimer := some (t0 + HOLD_DELAY_MS, id)} pre post id
      ⟨id, x0, y0, x0, y0, t0⟩ (t0 + HOLD_DELAY_MS) rfl rfl rfl rfl hd0 hl0
      hopen (hypotLe_self x0 y0) hpre hpost xu yu tu
  simp only [holdEpisode]
  rw [runEvs_cons_snd, runEvs_cons_fst, hs1s, hs1f, hOut, hTap, hDrag]
  exact ⟨by decide, by decide, by decide, by decide, rfl, rfl⟩

/-- C3 witness: a concrete hold-drag episode on the demo card — one
1 px pre-move, the hold fire, a long post-move, then the lift. -/
theorem C3_hold_to_drag_witness :
    effCount (Eff.wire Msg.down)
      (runEvs demoCard (holdEpisode 7 50 50 PType.touch 0
        [Ev.pmove 7 51 50 PType.touch] [Ev.pmove 7 80 90 PType.touch]
        80 90 1000)).2 = 1 :=
  (C3_hold_to_drag demoCard 7 50 50 PType.touch 0
    [Ev.pmove 7 51 50 PType.touch] [Ev.pmove 7 80 90 PType.touch]
    80 90 1000 ⟨rfl, rfl, rfl, rfl, rfl⟩ rfl (Or.inl rfl)
    (by
      intro e he
      simp only [List.mem_singleton] at he
      subst he
      exact ⟨51, 50, PType.touch, rfl, by with_unfolding_all decide⟩)
    (by
      intro e he
      simp only [List.mem_singleton] at he
      subst he
      exact ⟨80, 90, PType.touch, rfl⟩)).1

end ClaimC3

section ClaimC1

/-- The single-contact episode of a candidate tap: pointer-down, moves
of that contact, then its lift. -/
def tapEpisode (id : Nat) (x0 y0 : ℚ) (τ : PType) (t0 : Int)
    (ms : List Ev) (xu yu : ℚ) (tu : Int) : List Ev :=
  Ev.pdown id x0 y0 τ t0 :: (ms ++ [Ev.pup id xu yu tu])

/-- Moves then a lift qualifying as a tap, outside the double-tap
window of the previous tap: nothing is emitted, the tracker empties,
and the tap timer is armed with the lift recorded. -/
theorem tapRunRecord (c1 : Card) (ms : List Ev) (id : Nat) (p : Pointer)
    (O : Opts) (L : Int)
    (hp : c1.pointers = [p]) (hid : p.id = id)
    (hg : c1.gesture = some Gesture.move) (hd : c1.dragPointerId = none)
    (hl : c1.locked = false) (hO : c1.opts = O) (hL : c1.lastTapTime = L)
    (hms : MovesOf id ms) (xu yu : ℚ) (tu : Int)
    (hdist : hypotLe (xu - p.startX) (yu - p.startY) O.tapSuppressionPx)
    (hdur : tu - p.startTime ≤ O.doubleTapMs)
    (hfirst : ¬ tu - L ≤ O.doubleTapMs) :
    (runEvs c1 (ms ++ [Ev.pup id xu yu tu])).2 = [] ∧
    (runEvs c1 (ms ++ [Ev.pup id xu yu tu])).1.pointers = [] ∧
    (runEvs c1 (ms ++ [Ev.pup id xu yu tu])).1.gesture = none ∧
    (runEvs c1 (ms ++ [Ev.pup id xu yu tu])).1.dragPointerId = none ∧
    (runEvs c1 (ms ++ [Ev.pup id xu yu tu])).1.holdTimer = none ∧
    (runEvs c1 (ms ++ [Ev.pup id xu yu tu])).1.locked = false ∧
    (runEvs c1 (ms ++ [Ev.pup id xu yu tu])).1.socketOpen = c1.socketOpen ∧
    (runEvs c1 (ms ++ [Ev.pup id xu yu tu])).1.opts = O ∧
    (runEvs c1 (ms ++ [Ev.pup id xu yu tu])).1.tapTimer =
      some (tu + O.doubleTapMs) ∧
    (runEvs c1 (ms ++ [Ev.pup id xu yu tu])).1.lastTapTime = tu := by
  obtain ⟨q, hq1, hq2, hq3, hq4, hqout, hqptr, hqges, hqdrag, hqtap, hqlast,
      hqlok, hqsock, hqopts⟩ :=
    runMoves_single ms c1 p (by rw [hid]; exact hms) hl hp hg
  have hdisp : handlePointerUp (runEvs c1 ms).1 id xu yu tu =
      pointerUpCore (runEvs c1 ms).1 q id xu yu tu false :=
    handlePointerUp_some_nodrag (runEvs c1 ms).1 q id xu yu tu hqlok
      (by rw [hqptr]; exact mapGet_singleton q id (by rw [hq1]; exact hid))
      (hqdrag.trans hd)
  have hcore := (pointerUpCore_single_tap (runEvs c1 ms).1 q xu yu tu hqptr
      hqges
      (by rw [hq2, hq3, hqopts, hO]; exact hdist)
      (by rw [hq4, hqopts, hO]; exact hdur)
      id (by rw [hq1]; exact hid)).2
    (by rw [hqlast, hqopts, hO, hL]; exact hfirst)
  have hstep : stepEv (runEvs c1 ms).1 (Ev.pup id xu yu tu) =
      ({(runEvs c1 ms).1 with
          holdTimer := none, pointers := [], lastTapTime := tu,
          tapTimer := some (tu + O.doubleTapMs), gesture := none}, []) := by
    show handlePointerUp _ id xu yu tu = _
    rw [hdisp, hcore]
    simp only [hqopts, hO]
  have hsf : (stepEv (runEvs c1 ms).1 (Ev.pup id xu yu tu)).1 =
      {(runEvs c1 ms).1 with
        holdTimer := none, pointers := [], lastTapTime := tu,
        tapTimer := some (tu + O.doubleTapMs), gesture := none} := by
    rw [hstep]
  have hss : (stepEv (runEvs c1 ms).1 (Ev.pup id xu yu tu)).2 = [] := by
    rw [hstep]
  rw [runEvs_append_snd, runEvs_append_fst, hqout, runEvs_cons_snd,
      runEvs_cons_fst, hss, hsf]
  simp only [runEvs]
  refine ⟨?_, ?_, ?_, ?_, ?_, ?_, ?_, ?_, ?_, ?_⟩ <;>
    first
      | trivial
      | exact hqdrag.trans hd
      | exact hqlok
      | exact hqsock
      | exact hqopts.trans hO

/-- Moves then a lift qualifying as a tap, inside the double-tap window
of the previous one, over an open socket: a `double_click` attempt and
wire message are emitted, the tap timer ends cleared. -/
theorem tapRunDouble (c1 : Card) (ms : List Ev) (id : Nat) (p : Pointer)
    (O : Opts) (L : Int)
    (hp : c1.pointers = [p]) (hid : p.id = id)
    (hg : c1.gesture = some Gesture.move) (hd : c1.dragPointerId = none)
    (hl : c1.locked = false) (hs : c1.socketOpen = true)
    (hO : c1.opts = O) (hL : c1.lastTapTime = L)
    (hms : MovesOf id ms) (xu yu : ℚ) (tu : Int)
    (hdist : hypotLe (xu - p.startX) (yu - p.startY) O.tapSuppressionPx)
    (hdur : tu - p.startTime ≤ O.doubleTapMs)
    (hdbl : tu - L ≤ O.doubleTapMs) :
    (runEvs c1 (ms ++ [Ev.pup id xu yu tu])).2 =
      [Eff.call Msg.double_click, Eff.wire Msg.double_click] ∧
    (runEvs c1 (ms ++ [Ev.pup id xu yu tu])).1.tapTimer = none ∧
    (runEvs c1 (ms ++ [Ev.pup id xu yu tu])).1.lastTapTime = 0 ∧
    (runEvs c1 (ms ++ [Ev.pup id xu yu tu])).1.pointers = [] ∧
    (runEvs c1 (ms ++ [Ev.pup id xu yu tu])).1.gesture = none := by
  obtain ⟨q, hq1, hq2, hq3, hq4, hqout, hqptr, hqges, hqdrag, hqtap, hqlast,
      hqlok, hqsock, hqopts⟩ :=
    runMoves_single ms c1 p (by rw [hid]; exact hms) hl hp hg
  have hdisp : handlePointerUp (runEvs c1 ms).1 id xu yu tu =
      pointerUpCore (runEvs c1 ms).1 q id xu yu tu false :=
    handlePointerUp_some_nodrag (runEvs c1 ms).1 q id xu yu tu hqlok
      (by rw [hqptr]; exact mapGet_singleton q id (by rw [hq1]; exact hid))
      (hqdrag.trans hd)
  have hcore := (pointerUpCore_single_tap (runEvs c1 ms).1 q xu yu tu hqptr
      hqges
      (by rw [hq2, hq3, hqopts, hO]; exact hdist)
      (by rw [hq4, hqopts, hO]; exact hdur)
      id (by rw [hq1]; exact hid)).1
    (by rw [hqlast, hqopts, hO, hL]; exact hdbl)
  have hstep : stepEv (runEvs c1 ms).1 (Ev.pup id xu yu tu) =
      ({(runEvs c1 ms).1 with
          holdTimer := none, pointers := [], tapTimer := none,
          lastTapTime := 0, gesture := none},
        [Eff.call Msg.double_click, Eff.wire Msg.double_click]) := by
    show handlePointerUp _ id xu yu tu = _
    rw [hdisp, hcore, sendTap_open _ Msg.double_click (hqsock.trans hs)]
  have hsf : (stepEv (runEvs c1 ms).1 (Ev.pup id xu yu tu)).1 =
      {(runEvs c1 ms).1 with
        holdTimer := none, pointers := [], tapTimer := none,
        lastTapTime := 0, gesture := none} := by
    rw [hstep]
  have hss : (stepEv (runEvs c1 ms).1 (Ev.pup id xu yu tu)).2 =
      [Eff.call Msg.double_click, Eff.wire Msg.double_click] := by
    rw [hstep]
  rw [runEvs_append_snd, runEvs_append_fst, hqout, runEvs_cons_snd,
      runEvs_cons_fst, hss, hsf]
  simp only [runEvs]
  refine ⟨?_, ?_, ?_, ?_, ?_⟩ <;> trivial

set_option maxHeartbeats 1000000 in
/-- C1 — a qualifying single-contact tap (displacement within the
tap-suppression radius, duration within the double-tap window) that
falls outside the previous tap's double-tap window: the episode itself
emits nothing and arms the tap timer; if the timer then fires, exactly
one `click` and no `double_click` goes to the open socket; if instead a
second qualifying tap completes inside the window, exactly one
`double_click` and no `click` is sent, and the tap timer ends
disarmed in both scenarios. -/
theorem C1_single_and_double_tap (c : Card) (id1 : Nat) (x01 y01 : ℚ)
    (τ1 : PType) (t01 : Int) (ms1 : List Ev) (xu1 yu1 : ℚ) (tu1 : Int)
    (hq : PreTap c) (hopen : c.socketOpen = true)
    (hms1 : MovesOf id1 ms1)
    (hdist1 : hypotLe (xu1 - x01) (yu1 - y01) c.opts.tapSuppressionPx)
    (hdur1 : tu1 - t01 ≤ c.opts.doubleTapMs)
    (hfirst : ¬ tu1 - c.lastTapTime ≤ c.opts.doubleTapMs) :
    (effCount (Eff.wire Msg.click)
        (runEvs c (tapEpisode id1 x01 y01 τ1 t01 ms1 xu1 yu1 tu1 ++
          [Ev.tapFire])).2 = 1 ∧
     effCount (Eff.wire Msg.double_click)
        (runEvs c (tapEpisode id1 x01 y01 τ1 t01 ms1 xu1 yu1 tu1 ++
          [Ev.tapFire])).2 = 0 ∧
     (runEvs c (tapEpisode id1 x01 y01 τ1 t01 ms1 xu1 yu1 tu1 ++
          [Ev.tapFire])).1.tapTimer = none) ∧
    (∀ (id2 : Nat) (x02 y02 : ℚ) (τ2 : PType) (t02 : Int) (ms2 : List Ev)
        (xu2 yu2 : ℚ) (tu2 : Int),
      MovesOf id2 ms2 →
      hypotLe (xu2 - x02) (yu2 - y02) c.opts.tapSuppressionPx →
      tu2 - t02 ≤ c.opts.doubleTapMs →
      tu2 - tu1 ≤ c.opts.doubleTapMs →
      effCount (Eff.wire Msg.double_click)
          (runEvs c (tapEpisode id1 x01 y01 τ1 t01 ms1 xu1 yu1 tu1 ++
            tapEpisode id2 x02 y02 τ2 t02 ms2 xu2 yu2 tu2)).2 = 1 ∧
      effCount (Eff.wire Msg.click)
          (runEvs c (tapEpisode id1 x01 y01 τ1 t01 ms1 xu1 yu1 tu1 ++
            tapEpisode id2 x02 y02 τ2 t02 ms2 xu2 yu2 tu2)).2 = 0 ∧
      (runEvs c (tapEpisode id1 x01 y01 τ1 t01 ms1 xu1 yu1 tu1 ++
            tapEpisode id2 x02 y02 τ2 t02 ms2 xu2 yu2 tu2)).1.tapTimer
        = none) := by
  obtain ⟨hp0, hg0, hd0, hh0, hl0⟩ := hq
  have hstep1 : stepEv c (Ev.pdown id1 x01 y01 τ1 t01) =
      ({c with
          pointers := [⟨id1, x01, y01, x01, y01, t01⟩],
          gesture := some Gesture.move,
          holdTimer := if τ1 ≠ PType.touch ∧ τ1 ≠ PType.pen then none
                       else some (t01 + HOLD_DELAY_MS, id1)}, []) := by
    show handlePointerDown c id1 x01 y01 τ1 t01 = _
    exact pdown_from_empty c id1 x01 y01 τ1 t01 ⟨hp0, hg0, hd0, hh0, hl0⟩
  have hs1f : (stepEv c (Ev.pdown id1 x01 y01 τ1 t01)).1 =
      {c with
        pointers := [⟨id1, x01, y01, x01, y01, t01⟩],
        gesture := some Gesture.move,
        holdTimer := if τ1 ≠ PType.touch ∧ τ1 ≠ PType.pen then none
                     else some (t01 + HOLD_DELAY_MS, id1)} := by
    rw [hstep1]
  have hs1s : (stepEv c (Ev.pdown id1 x01 y01 τ1 t01)).2 = [] := by
    rw [hstep1]
  obtain ⟨hAout, hAptr, hAges, hAdrag, hAhold, hAlok, hAsock, hAopts, hAtap,
      hAlast⟩ :=
    tapRunRecord {c with
        pointers := [⟨id1, x01, y01, x01, y01, t01⟩],
        gesture := some Gesture.move,
        holdTimer := if τ1 ≠ PType.touch ∧ τ1 ≠ PType.pen then none
                     else some (t01 + HOLD_DELAY_MS, id1)}
      ms1 id1 ⟨id1, x01, y01, x01, y01, t01⟩ c.opts c.lastTapTime
      rfl rfl rfl hd0 hl0 rfl rfl hms1 xu1 yu1 tu1 hdist1 hdur1 hfirst
  constructor
  · have hfire : stepEv (runEvs {c with
          pointers := [⟨id1, x01, y01, x01, y01, t01⟩],
          gesture := some Gesture.move,
          holdTimer := if τ1 ≠ PType.touch ∧ τ1 ≠ PType.pen then none
                       else some (t01 + HOLD_DELAY_MS, id1)}
        (ms1 ++ [Ev.pup id1 xu1 yu1 tu1])).1 Ev.tapFire =
        ({(runEvs {c with
            pointers := [⟨id1, x01, y01, x01, y01, t01⟩],
            gesture := some Gesture.move,
            holdTimer := if τ1 ≠ PType.touch ∧ τ1 ≠ PType.pen then none
                         else some (t01 + HOLD_DELAY_MS, id1)}
          (ms1 ++ [Ev.pup id1 xu1 yu1 tu1])).1 with
            lastTapTime := 0, tapTimer := none},
          [Eff.call Msg.click, Eff.wire Msg.click]) := by
      show fireTapTimer _ = _
      rw [fireTapTimer_some _ (tu1 + c.opts.doubleTapMs) hAtap,
          sendTap_open _ Msg.click (hAsock.trans hopen)]
    have hff : (stepEv (runEvs {c with
          pointers := [⟨id1, x01, y01, x01, y01, t01⟩],
          gesture := some Gesture.move,
          holdTimer := if τ1 ≠ PType.touch ∧ τ1 ≠ PType.pen then none
                       else some (t01 + HOLD_DELAY_MS, id1)}
        (ms1 ++ [Ev.pup id1 xu1 yu1 tu1])).1 Ev.tapFire).1 =
        {(runEvs {c with
            pointers := [⟨id1, x01, y01, x01, y01, t01⟩],
            gesture := some Gesture.move,
            holdTimer := if τ1 ≠ PType.touch ∧ τ1 ≠ PType.pen then none
                         else some (t01 + HOLD_DELAY_MS, id1)}
          (ms1 ++ [Ev.pup id1 xu1 yu1 tu1])).1 with
          lastTapTime := 0, tapTimer := none} := by
      rw [hfire]
    have hfs : (stepEv (runEvs {c with
          pointers := [⟨id1, x01, y01, x01, y01, t01⟩],
          gesture := some Gesture.move,
          holdTimer := if τ1 ≠ PType.touch ∧ τ1 ≠ PType.pen then none
                       else some (t01 + HOLD_DELAY_MS, id1)}
        (ms1 ++ [Ev.pup id1 xu1 yu1 tu1])).1 Ev.tapFire).2 =
        [Eff.call Msg.click, Eff.wire Msg.click] := by
      rw [hfire]
    simp only [tapEpisode]
    rw [List.cons_append, runEvs_cons_snd, runEvs_cons_fst, hs1s, hs1f,
        runEvs_append_snd _ _ [Ev.tapFire], runEvs_append_fst _ _ [Ev.tapFire],
        hAout, runEvs_cons_snd, runEvs_cons_fst, hfs, hff]
    simp only [runEvs]
    exact ⟨by decide, by decide, trivial⟩
  · intro id2 x02 y02 τ2 t02 ms2 xu2 yu2 tu2 hms2 hdist2 hdur2 hwin
    have hstep2 : stepEv (runEvs {c with
          pointers := [⟨id1, x01, y01, x01, y01, t01⟩],
          gesture := some Gesture.move,
          holdTimer := if τ1 ≠ PType.touch ∧ τ1 ≠ PType.pen then none
                       else some (t01 + HOLD_DELAY_MS, id1)}
        (ms1 ++ [Ev.pup id1 xu1 yu1 tu1])).1 (Ev.pdown id2 x02 y02 τ2 t02) =
        ({(runEvs {c with
            pointers := [⟨id1, x01, y01, x01, y01, t01⟩],
            gesture := some Gesture.move,
            holdTimer := if τ1 ≠ PType.touch ∧ τ1 ≠ PType.pen then none
                         else some (t01 + HOLD_DELAY_MS, id1)}
          (ms1 ++ [Ev.pup id1 xu1 yu1 tu1])).1 with
            pointers := [⟨id2, x02, y02, x02, y02, t02⟩],
            gesture := some Gesture.move,
            holdTimer := if τ2 ≠ PType.touch ∧ τ2 ≠ PType.pen then none
                         else some (t02 + HOLD_DELAY_MS, id2)}, []) := by
      show handlePointerDown _ id2 x02 y02 τ2 t02 = _
      exact pdown_from_empty _ id2 x02 y02 τ2 t02
        ⟨hAptr, hAges, hAdrag, hAhold, hAlok⟩
    have hs2f : (stepEv (runEvs {c with
          pointers := [⟨id1, x01, y01, x01, y01, t01⟩],
          gesture := some Gesture.move,
          holdTimer := if τ1 ≠ PType.touch ∧ τ1 ≠ PType.pen then none
                       else some (t01 + HOLD_DELAY_MS, id1)}
        (ms1 ++ [Ev.pup id1 xu1 yu1 tu1])).1 (Ev.pdown id2 x02 y02 τ2 t02)).1 =
        {(runEvs {c with
            pointers := [⟨id1, x01, y01, x01, y01, t01⟩],
            gesture := some Gesture.move,
            holdTimer := if τ1 ≠ PType.touch ∧ τ1 ≠ PType.pen then none
                         else some (t01 + HOLD_DELAY_MS, id1)}
          (ms1 ++ [Ev.pup id1 xu1 yu1 tu1])).1 with
          pointers := [⟨id2, x02, y02, x02, y02, t02⟩],
          gesture := some Gesture.move,
          holdTimer := if τ2 ≠ PType.touch ∧ τ2 ≠ PType.pen then none
                       else some (t02 + HOLD_DELAY_MS, id2)} := by
      rw [hstep2]
    have hs2s : (stepEv (runEvs {c with
          pointers := [⟨id1, x01, y01, x01, y01, t01⟩],
          gesture := some Gesture.move,
          holdTimer := if τ1 ≠ PType.touch ∧ τ1 ≠ PType.pen then none
                       else some (t01 + HOLD_DELAY_MS, id1)}
        (ms1 ++ [Ev.pup id1 xu1 yu1 tu1])).1 (Ev.pdown id2 x02 y02 τ2 t02)).2
        = [] := by
      rw [hstep2]
    obtain ⟨hBout, hBtap, hBlast, hBptr, hBges⟩ :=
      tapRunDouble {(runEvs {c with
            pointers := [⟨id1, x01, y01, x01, y01, t01⟩],
            gesture := some Gesture.move,
            holdTimer := if τ1 ≠ PType.touch ∧ τ1 ≠ PType.pen then none
                         else some (t01 + HOLD_DELAY_MS, id1)}
          (ms1 ++ [Ev.pup id1 xu1 yu1 tu1])).1 with
          pointers := [⟨id2, x02, y02, x02, y02, t02⟩],
          gesture := some Gesture.move,
          holdTimer := if τ2 ≠ PType.touch ∧ τ2 ≠ PType.pen then none
                       else some (t02 + HOLD_DELAY_MS, id2)}
        ms2 id2 ⟨id2, x02, y02, x02, y02, t02⟩ c.opts tu1
        rfl rfl rfl hAdrag hAlok (hAsock.trans hopen) hAopts hAlast hms2
        xu2 yu2 tu2 hdist2 hdur2 hwin
    simp only [tapEpisode]
    rw [List.cons_append, runEvs_cons_snd, runEvs_cons_fst, hs1s, hs1f,
        runEvs_append_snd _ _
          (Ev.pdown id2 x02 y02 τ2 t02 :: (ms2 ++ [Ev.pup id2 xu2 yu2 tu2])),
        runEvs_append_fst _ _
          (Ev.pdown id2 x02 y02 τ2 t02 :: (ms2 ++ [Ev.pup id2 xu2 yu2 tu2])),
        hAout, runEvs_cons_snd, runEvs_cons_fst, hs2s, hs2f, hBout, hBtap]
    exact ⟨by decide, by decide, rfl⟩

/-- C1 witness: a concrete 2 px, 100 ms tap on the demo card whose tap
timer then fires, yielding exactly one `click` wire message. -/
theorem C1_single_and_double_tap_witness :
    effCount (Eff.wire Msg.click)
      (runEvs demoCard (tapEpisode 3 100 100 PType.mouse 1000 []
        102 100 1100 ++ [Ev.tapFire])).2 = 1 :=
  (C1_single_and_double_tap demoCard 3 100 100 PType.mouse 1000 []
    102 100 1100 ⟨rfl, rfl, rfl, rfl, rfl⟩ rfl
    (fun e he => absurd he (List.not_mem_nil e))
    (by with_unfolding_all decide) (by decide) (by decide)).1.1

end ClaimC1

section ClaimC2

set_option maxHeartbeats 800000 in
/-- C2 — lifting one of exactly two concurrently tracked contacts when
the lifted contact's lift position and the remaining contact's current
position are each within the tap-suppression radius of their own
starts, and the lift is within the double-tap window of the earlier of
the two start times: exactly one `right_click` attempt and wire message
is emitted, the contact list is cleared, the gesture is reset, and no
`click`, `double_click`, or `move` message is emitted by the lift. -/
theorem C2_two_finger_right_click (c : Card) (a b : Pointer) (uid : Nat)
    (xu yu : ℚ) (tu : Int)
    (hp : c.pointers = [a, b]) (hne : a.id ≠ b.id)
    (hlock : c.locked = false) (hopen : c.socketOpen = true)
    (hd : c.dragPointerId = none)
    (hq : (uid = a.id ∧
            hypotLe (xu - a.startX) (yu - a.startY) c.opts.tapSuppressionPx ∧
            hypotLe (b.x - b.startX) (b.y - b.startY) c.opts.tapSuppressionPx)
        ∨ (uid = b.id ∧
            hypotLe (xu - b.startX) (yu - b.startY) c.opts.tapSuppressionPx ∧
            hypotLe (a.x - a.startX) (a.y - a.startY) c.opts.tapSuppressionPx))
    (hwin : tu - min a.startTime b.startTime ≤ c.opts.doubleTapMs) :
    effCount (Eff.wire Msg.right_click) (stepEv c (Ev.pup uid xu yu tu)).2 = 1 ∧
    effCount (Eff.wire Msg.click) (stepEv c (Ev.pup uid xu yu tu)).2 = 0 ∧
    effCount (Eff.wire Msg.double_click) (stepEv c (Ev.pup uid xu yu tu)).2 = 0 ∧
    moveWireCount (stepEv c (Ev.pup uid xu yu tu)).2 = 0 ∧
    (stepEv c (Ev.pup uid xu yu tu)).1.pointers = [] ∧
    (stepEv c (Ev.pup uid xu yu tu)).1.gesture = none := by
  have hlen : c.pointers.length = 2 := by rw [hp]; rfl
  have hstep : stepEv c (Ev.pup uid xu yu tu) =
      ({c with holdTimer := none, pointers := [], gesture := none},
        [Eff.call Msg.right_click, Eff.wire Msg.right_click]) := by
    show handlePointerUp c uid xu yu tu = _
    rcases hq with ⟨huid, h1, h2⟩ | ⟨huid, h1, h2⟩
    · have hget : mapGet c.pointers uid = some a := by
        rw [hp, huid]
        simp [mapGet]
      have hdel : mapDelete c.pointers uid = [b] := by
        rw [hp, huid]
        simp [mapDelete, Ne.symm hne]
      rw [handlePointerUp_some_nodrag c a uid xu yu tu hlock hget hd,
          pointerUpCore_two_rightclick c a b uid xu yu tu hlen hdel h1 h2
            hwin false,
          sendTap_open c Msg.right_click hopen]
    · have hget : mapGet c.pointers uid = some b := by
        rw [hp, huid]
        simp [mapGet, hne]
      have hdel : mapDelete c.pointers uid = [a] := by
        rw [hp, huid]
        simp [mapDelete, hne]
      rw [handlePointerUp_some_nodrag c b uid xu yu tu hlock hget hd,
          pointerUpCore_two_rightclick c b a uid xu yu tu hlen hdel h1 h2
            (by rw [min_comm]; exact hwin) false,
          sendTap_open c Msg.right_click hopen]
  have hsf : (stepEv c (Ev.pup uid xu yu tu)).1 =
      {c with holdTimer := none, pointers := [], gesture := none} := by
    rw [hstep]
  have hss : (stepEv c (Ev.pup uid xu yu tu)).2 =
      [Eff.call Msg.right_click, Eff.wire Msg.right_click] := by
    rw [hstep]
  rw [hss, hsf]
  exact ⟨by decide, by decide, by decide, by decide, rfl, rfl⟩

/-- C2 witness: two nearly stationary contacts on the demo card, the
first lifted 2 px from its start well inside the window. -/
theorem C2_two_finger_right_click_witness :
    effCount (Eff.wire Msg.right_click)
      (stepEv {demoCard with
          pointers := [⟨1, 10, 10, 10, 10, 0⟩, ⟨2, 30, 11, 30, 10, 50⟩],
          gesture := some Gesture.scroll}
        (Ev.pup 1 12 11 200)).2 = 1 :=
  (C2_two_finger_right_click {demoCard with
      pointers := [⟨1, 10, 10, 10, 10, 0⟩, ⟨2, 30, 11, 30, 10, 50⟩],
      gesture := some Gesture.scroll}
    ⟨1, 10, 10, 10, 10, 0⟩ ⟨2, 30, 11, 30, 10, 50⟩ 1 12 11 200
    rfl (by decide) rfl rfl rfl
    (Or.inl ⟨rfl, by with_unfolding_all decide, by with_unfolding_all decide⟩)
    (by decide)).1

end ClaimC2



end Touchpad
